import Mathlib

/-!
# D0 analysis task (Analysis/Tasks/PWGHF/taskD0.cxx)

A shallow embedding of the two analysis tasks of taskD0.cxx, `TaskD0` and `TaskD0MC`.

* A histogram registry is modelled by the log of the `registry.fill` calls made on it, oldest
  first: every call appends one `Fill` (the histogram name and the values passed).
* `float`/`double` quantities are rationals; the integer columns and the integer configurables
  are integers, and the `int` arithmetic of line 100 is reduced to 32 bits (`int32`).
* Enumerators, candidate helper functions and table accessors that are declared in headers
  outside the sources at hand are parameters (`Enums`, `Helpers`, `McHelpers`).
* A loop `for (auto& x : table) { body }` is a left fold of the body over the rows; `continue`
  returns the registry unchanged.
-/

namespace O2

/-! ## Data model -/

/-- Enumerator values used by the tasks. The enums `DecayType` and `OriginType` are declared in
AnalysisDataModel/HFSecondaryVertex.h; their values are taken as parameters. -/
structure Enums where
  /-- The value of DecayType::D0ToPiK (a bit position). -/
  D0ToPiK : Nat
  /-- The value of OriginType::Prompt. -/
  Prompt : Int
  /-- The value of OriginType::NonPrompt. -/
  NonPrompt : Int

/-- One row of `soa::Join<aod::HfCandProng2, aod::HFSelD0Candidate>`: the columns read by the
tasks. -/
structure Candidate where
  index0 : Int
  hfflag : Nat
  isSelD0 : Int
  isSelD0bar : Int
  pt : ℚ
  ptProng0 : ℚ
  ptProng1 : ℚ
  eta : ℚ
  cpa : ℚ
  cpaXY : ℚ
  decayLength : ℚ
  decayLengthXY : ℚ
  decayLengthNormalised : ℚ
  decayLengthXYNormalised : ℚ
  impactParameter0 : ℚ
  impactParameter1 : ℚ
  impactParameterNormalised0 : ℚ
  impactParameterNormalised1 : ℚ
  impactParameterProduct : ℚ
  errorImpactParameter0 : ℚ
  errorImpactParameter1 : ℚ
  errorDecayLength : ℚ
  errorDecayLengthXY : ℚ

/-- One row of `soa::Join<aod::HfCandProng2, aod::HFSelD0Candidate, aod::HfCandProng2MCRec>`:
a candidate together with its two MC matching columns. -/
structure CandidateMC extends Candidate where
  flagMCMatchRec : Int
  originMCRec : Int

/-- One row of `soa::Join<aod::McParticles, aod::HfCandProng2MCGen>`. -/
structure McParticle where
  pt : ℚ
  eta : ℚ
  px : ℚ
  py : ℚ
  pz : ℚ
  pdgCode : Int
  flagMCMatchGen : Int
  originMCGen : Int

/-- The candidate functions of AnalysisDataModel/HFSecondaryVertex.h called by the tasks, taken
as parameters. -/
structure Helpers where
  YD0 : Candidate → ℚ
  InvMassD0 : Candidate → ℚ
  InvMassD0bar : Candidate → ℚ
  CosThetaStarD0 : Candidate → ℚ
  CtD0 : Candidate → ℚ

/-- The MC look-ups called by `TaskD0MC::process`, taken as parameters. -/
structure McHelpers where
  /-- The MC particle of the track at a row index of `aod::BigTracksMC`, as reached by
  `candidate.index0_as<aod::BigTracksMC>().mcParticle_as<...>()`. -/
  trackMcParticle : Int → McParticle
  /-- The row index found by
  `RecoDecay::getMother(particlesMC, particle, pdg::Code::kD0, true)`. -/
  getMother : List McParticle → McParticle → Int
  /-- The row `particlesMC.iteratorAt(index)`. -/
  iteratorAt : List McParticle → Int → McParticle
  /-- The rapidity `RecoDecay::Y(array{px, py, pz}, mass)`. -/
  Y : ℚ → ℚ → ℚ → ℚ → ℚ
  /-- The mass `RecoDecay::getMassPDG(pdgCode)`. -/
  getMassPDG : Int → ℚ

/-- The configurables shared by both tasks (`pTBins` only shapes the histogram axes and is
left out). -/
structure Config where
  d_selectionFlagD0 : Int
  d_selectionFlagD0bar : Int
  cutYCandMax : ℚ

/-- One call `registry.fill(HIST(name), values...)`. -/
structure Fill where
  name : String
  values : List ℚ
deriving DecidableEq

/-- The registry, as the log of the fills made on it. -/
abbrev HistogramRegistry := List Fill

/-- The call `registry.fill(HIST(name), values...)` appends one entry to the log. -/
def HistogramRegistry.fill (registry : HistogramRegistry) (name : String) (values : List ℚ) :
    HistogramRegistry :=
  registry ++ [⟨name, values⟩]

/-! ## TaskD0 -/

/-- The expression of `Filter filterSelectCandidates` (line 69), evaluated on one row. -/
def TaskD0.filterSelectCandidates (cfg : Config) (candidate : Candidate) : Bool :=
  decide (candidate.isSelD0 ≥ cfg.d_selectionFlagD0) ||
    decide (candidate.isSelD0bar ≥ cfg.d_selectionFlagD0bar)

/-- The value a 32-bit `int` holds for the mathematical result `x` of an `int` operation:
`x` reduced modulo 2^32 into the range from -2^31 to 2^31 - 1 (two's complement). -/
def int32 (x : Int) : Int :=
  (x + 2147483648) % 4294967296 - 2147483648

/-- The expression `candidate.isSelD0() + (candidate.isSelD0bar() * 2)` of line 100, in `int`
arithmetic. -/
def TaskD0.selectionStatus (candidate : Candidate) : Int :=
  int32 (candidate.isSelD0 + int32 (candidate.isSelD0bar * 2))

/-- The body of the candidate loop of `TaskD0::process` (lines 74-104). -/
def TaskD0.processCandidate (e : Enums) (h : Helpers) (cfg : Config)
    (registry : HistogramRegistry) (candidate : Candidate) : HistogramRegistry :=
  if (candidate.hfflag &&& (1 <<< e.D0ToPiK)) = 0 then registry
  else if cfg.cutYCandMax ≥ 0 ∧ |h.YD0 candidate| > cfg.cutYCandMax then registry
  else
    let registry :=
      if candidate.isSelD0 ≥ cfg.d_selectionFlagD0 then
        registry.fill "hmass" [h.InvMassD0 candidate, candidate.pt]
      else registry
    let registry :=
      if candidate.isSelD0bar ≥ cfg.d_selectionFlagD0bar then
        registry.fill "hmass" [h.InvMassD0bar candidate, candidate.pt]
      else registry
    let registry := registry.fill "hptcand" [candidate.pt]
    let registry := registry.fill "hptprong0" [candidate.ptProng0]
    let registry := registry.fill "hptprong1" [candidate.ptProng1]
    let registry := registry.fill "hdeclength" [candidate.decayLength, candidate.pt]
    let registry := registry.fill "hdeclengthxy" [candidate.decayLengthXY, candidate.pt]
    let registry := registry.fill "hd0Prong0" [candidate.impactParameter0, candidate.pt]
    let registry := registry.fill "hd0Prong1" [candidate.impactParameter1, candidate.pt]
    let registry := registry.fill "hd0d0" [candidate.impactParameterProduct, candidate.pt]
    let registry := registry.fill "hCTS" [h.CosThetaStarD0 candidate, candidate.pt]
    let registry := registry.fill "hCt" [h.CtD0 candidate, candidate.pt]
    let registry := registry.fill "hCPA" [candidate.cpa, candidate.pt]
    let registry := registry.fill "hEta" [candidate.eta, candidate.pt]
    let registry := registry.fill "hselectionstatus"
      [((TaskD0.selectionStatus candidate : Int) : ℚ), candidate.pt]
    let registry := registry.fill "hImpParErr" [candidate.errorImpactParameter0, candidate.pt]
    let registry := registry.fill "hImpParErr" [candidate.errorImpactParameter1, candidate.pt]
    let registry := registry.fill "hDecLenErr" [candidate.errorDecayLength, candidate.pt]
    let registry := registry.fill "hDecLenXYErr" [candidate.errorDecayLengthXY, candidate.pt]
    registry

/-- The function `TaskD0::process` (lines 71-106): the loop over the rows it is handed. -/
def TaskD0.process (e : Enums) (h : Helpers) (cfg : Config) (registry : HistogramRegistry)
    (candidates : List Candidate) : HistogramRegistry :=
  candidates.foldl (TaskD0.processCandidate e h cfg) registry

/-- The task as the framework runs it: `process` receives the rows of the joined table that
satisfy `filterSelectCandidates` (its argument is `soa::Filtered`). -/
def TaskD0.run (e : Enums) (h : Helpers) (cfg : Config) (registry : HistogramRegistry)
    (table : List Candidate) : HistogramRegistry :=
  TaskD0.process e h cfg registry (table.filter (TaskD0.filterSelectCandidates cfg))

/-- The fills one candidate adds when `TaskD0::process` handles it. -/
def TaskD0.observations (e : Enums) (h : Helpers) (cfg : Config) (candidate : Candidate) :
    List Fill :=
  TaskD0.processCandidate e h cfg [] candidate

/-! ## TaskD0MC -/

/-- The expression of `Filter filterSelectCandidates` of the MC task (line 166), evaluated on
one row. -/
def TaskD0MC.filterSelectCandidates (cfg : Config) (candidate : CandidateMC) : Bool :=
  decide (candidate.isSelD0 ≥ cfg.d_selectionFlagD0) ||
    decide (candidate.isSelD0bar ≥ cfg.d_selectionFlagD0bar)

/-- The fills of the matched branch made when isSelD0 meets its threshold (lines 203-209). -/
def TaskD0MC.signalD0 (h : Helpers) (registry : HistogramRegistry) (candidate : CandidateMC) :
    HistogramRegistry :=
  let registry := registry.fill "hmass2DRecSig" [h.InvMassD0 candidate.toCandidate, candidate.pt]
  let registry := registry.fill "hpionpTRecSig" [candidate.ptProng0, candidate.pt]
  let registry := registry.fill "hkaonpTRecSig" [candidate.ptProng1, candidate.pt]
  let registry := registry.fill "hDCApionRecSig" [candidate.impactParameter0, candidate.pt]
  let registry := registry.fill "hDCAkaonRecSig" [candidate.impactParameter1, candidate.pt]
  let registry :=
    registry.fill "hDCApionNormRecSig" [candidate.impactParameterNormalised0, candidate.pt]
  let registry :=
    registry.fill "hDCAkaonNormRecSig" [candidate.impactParameterNormalised1, candidate.pt]
  registry

/-- The fills of the matched branch made when isSelD0bar meets its threshold (lines 212-218). -/
def TaskD0MC.signalD0bar (h : Helpers) (registry : HistogramRegistry) (candidate : CandidateMC) :
    HistogramRegistry :=
  let registry :=
    registry.fill "hmass2DRecSig" [h.InvMassD0bar candidate.toCandidate, candidate.pt]
  let registry := registry.fill "hpionpTRecSig" [candidate.ptProng1, candidate.pt]
  let registry := registry.fill "hkaonpTRecSig" [candidate.ptProng0, candidate.pt]
  let registry := registry.fill "hDCApionRecSig" [candidate.impactParameter1, candidate.pt]
  let registry := registry.fill "hDCAkaonRecSig" [candidate.impactParameter0, candidate.pt]
  let registry :=
    registry.fill "hDCApionNormRecSig" [candidate.impactParameterNormalised1, candidate.pt]
  let registry :=
    registry.fill "hDCAkaonNormRecSig" [candidate.impactParameterNormalised0, candidate.pt]
  registry

/-- The matched branch of the reconstructed loop (lines 182-219). -/
def TaskD0MC.signalBranch (e : Enums) (h : Helpers) (m : McHelpers) (cfg : Config)
    (particlesMC : List McParticle) (registry : HistogramRegistry) (candidate : CandidateMC) :
    HistogramRegistry :=
  let indexMother := m.getMother particlesMC (m.trackMcParticle candidate.index0)
  let particleMother := m.iteratorAt particlesMC indexMother
  let registry := registry.fill "hPtGenSig" [particleMother.pt]
  let ptRec := candidate.pt
  let registry := registry.fill "hPtRecSig" [ptRec]
  let registry :=
    if candidate.originMCRec = e.Prompt then registry.fill "hPtRecSigPrompt" [ptRec]
    else registry.fill "hPtRecSigNonPrompt" [ptRec]
  let registry := registry.fill "hCPARecSig" [candidate.cpa]
  let registry := registry.fill "hEtaRecSig" [candidate.eta]
  let registry := registry.fill "hCPA2DRecSig" [candidate.cpa, candidate.pt]
  let registry := registry.fill "hIPPRecSig" [candidate.impactParameterProduct, candidate.pt]
  let registry := registry.fill "hCPAXYRecSig" [candidate.cpaXY, candidate.pt]
  let registry :=
    registry.fill "hDeclengthXYRecSig" [candidate.decayLengthXYNormalised, candidate.pt]
  let registry := registry.fill "hDeclengthRecSig" [candidate.decayLength, candidate.pt]
  let registry :=
    registry.fill "hDeclengthNormRecSig" [candidate.decayLengthNormalised, candidate.pt]
  let registry :=
    registry.fill "hCTSRecSig" [h.CosThetaStarD0 candidate.toCandidate, candidate.pt]
  let registry :=
    if candidate.isSelD0 ≥ cfg.d_selectionFlagD0 then TaskD0MC.signalD0 h registry candidate
    else registry
  let registry :=
    if candidate.isSelD0bar ≥ cfg.d_selectionFlagD0bar then
      TaskD0MC.signalD0bar h registry candidate
    else registry
  registry

/-- The fills of the unmatched branch made when isSelD0 meets its threshold (lines 233-239). -/
def TaskD0MC.backgroundD0 (h : Helpers) (registry : HistogramRegistry)
    (candidate : CandidateMC) : HistogramRegistry :=
  let registry := registry.fill "hmass2DRecBg" [h.InvMassD0 candidate.toCandidate, candidate.pt]
  let registry := registry.fill "hpionpTRecBg" [candidate.ptProng0, candidate.pt]
  let registry := registry.fill "hkaonpTRecBg" [candidate.ptProng1, candidate.pt]
  let registry := registry.fill "hDCApionRecBg" [candidate.impactParameter0, candidate.pt]
  let registry := registry.fill "hDCAkaonRecBg" [candidate.impactParameter1, candidate.pt]
  let registry :=
    registry.fill "hDCApionNormRecBg" [candidate.impactParameterNormalised0, candidate.pt]
  let registry :=
    registry.fill "hDCAkaonNormRecBg" [candidate.impactParameterNormalised1, candidate.pt]
  registry

/-- The fills of the unmatched branch made when isSelD0bar meets its threshold
(lines 242-248). -/
def TaskD0MC.backgroundD0bar (h : Helpers) (registry : HistogramRegistry)
    (candidate : CandidateMC) : HistogramRegistry :=
  let registry :=
    registry.fill "hmass2DRecBg" [h.InvMassD0bar candidate.toCandidate, candidate.pt]
  let registry := registry.fill "hpionpTRecBg" [candidate.ptProng1, candidate.pt]
  let registry := registry.fill "hkaonpTRecBg" [candidate.ptProng0, candidate.pt]
  let registry := registry.fill "hDCApionRecBg" [candidate.impactParameter1, candidate.pt]
  let registry := registry.fill "hDCAkaonRecBg" [candidate.impactParameter0, candidate.pt]
  let registry :=
    registry.fill "hDCApionNormRecBg" [candidate.impactParameterNormalised1, candidate.pt]
  let registry :=
    registry.fill "hDCAkaonNormRecBg" [candidate.impactParameterNormalised0, candidate.pt]
  registry

/-- The unmatched branch of the reconstructed loop (lines 222-249). -/
def TaskD0MC.backgroundBranch (h : Helpers) (cfg : Config) (registry : HistogramRegistry)
    (candidate : CandidateMC) : HistogramRegistry :=
  let registry := registry.fill "hPtRecBg" [candidate.pt]
  let registry := registry.fill "hCPARecBg" [candidate.cpa]
  let registry := registry.fill "hEtaRecBg" [candidate.eta]
  let registry := registry.fill "hCPA2DRecBg" [candidate.cpa, candidate.pt]
  let registry := registry.fill "hIPPRecBg" [candidate.impactParameterProduct, candidate.pt]
  let registry := registry.fill "hCPAXYRecBg" [candidate.cpaXY, candidate.pt]
  let registry :=
    registry.fill "hDeclengthXYRecBg" [candidate.decayLengthXYNormalised, candidate.pt]
  let registry := registry.fill "hDeclengthRecBg" [candidate.decayLength, candidate.pt]
  let registry :=
    registry.fill "hDeclengthNormRecBg" [candidate.decayLengthNormalised, candidate.pt]
  let registry :=
    registry.fill "hCTSRecBg" [h.CosThetaStarD0 candidate.toCandidate, candidate.pt]
  let registry :=
    if candidate.isSelD0 ≥ cfg.d_selectionFlagD0 then TaskD0MC.backgroundD0 h registry candidate
    else registry
  let registry :=
    if candidate.isSelD0bar ≥ cfg.d_selectionFlagD0bar then
      TaskD0MC.backgroundD0bar h registry candidate
    else registry
  registry

/-- The test `std::abs(candidate.flagMCMatchRec()) == 1 << DecayType::D0ToPiK` (line 181). -/
def TaskD0MC.isMatched (e : Enums) (candidate : CandidateMC) : Prop :=
  |candidate.flagMCMatchRec| = ((1 <<< e.D0ToPiK : Nat) : Int)

instance (e : Enums) (candidate : CandidateMC) : Decidable (TaskD0MC.isMatched e candidate) := by
  unfold TaskD0MC.isMatched; infer_instance

/-- The body of the reconstructed loop of `TaskD0MC::process` (lines 175-251). -/
def TaskD0MC.processCandidate (e : Enums) (h : Helpers) (m : McHelpers) (cfg : Config)
    (particlesMC : List McParticle) (registry : HistogramRegistry) (candidate : CandidateMC) :
    HistogramRegistry :=
  if (candidate.hfflag &&& (1 <<< e.D0ToPiK)) = 0 then registry
  else if cfg.cutYCandMax ≥ 0 ∧ |h.YD0 candidate.toCandidate| > cfg.cutYCandMax then registry
  else if TaskD0MC.isMatched e candidate then
    TaskD0MC.signalBranch e h m cfg particlesMC registry candidate
  else TaskD0MC.backgroundBranch h cfg registry candidate

/-- The body of the generated loop of `TaskD0MC::process` (lines 256-268). -/
def TaskD0MC.processParticle (e : Enums) (m : McHelpers) (cfg : Config)
    (registry : HistogramRegistry) (particle : McParticle) : HistogramRegistry :=
  if |particle.flagMCMatchGen| = ((1 <<< e.D0ToPiK : Nat) : Int) then
    if cfg.cutYCandMax ≥ 0 ∧
        |m.Y particle.px particle.py particle.pz (m.getMassPDG particle.pdgCode)|
          > cfg.cutYCandMax then registry
    else
      let ptGen := particle.pt
      let registry := registry.fill "hPtGen" [ptGen]
      let registry :=
        if particle.originMCGen = e.Prompt then registry.fill "hPtGenPrompt" [ptGen]
        else registry.fill "hPtGenNonPrompt" [ptGen]
      let registry := registry.fill "hEtaGen" [particle.eta]
      registry
  else registry

/-- The function `TaskD0MC::process` (lines 168-270): the reconstructed loop over the rows it is
handed, then the generated loop. -/
def TaskD0MC.process (e : Enums) (h : Helpers) (m : McHelpers) (cfg : Config)
    (registry : HistogramRegistry) (candidates : List CandidateMC)
    (particlesMC : List McParticle) : HistogramRegistry :=
  let registry := candidates.foldl (TaskD0MC.processCandidate e h m cfg particlesMC) registry
  particlesMC.foldl (TaskD0MC.processParticle e m cfg) registry

/-- The MC task as the framework runs it: the candidate rows are filtered by
`filterSelectCandidates`, the particle table is not. -/
def TaskD0MC.run (e : Enums) (h : Helpers) (m : McHelpers) (cfg : Config)
    (registry : HistogramRegistry) (table : List CandidateMC) (particlesMC : List McParticle) :
    HistogramRegistry :=
  TaskD0MC.process e h m cfg registry (table.filter (TaskD0MC.filterSelectCandidates cfg))
    particlesMC

/-- The fills one candidate adds when the reconstructed loop of `TaskD0MC::process` handles
it. -/
def TaskD0MC.observations (e : Enums) (h : Helpers) (m : McHelpers) (cfg : Config)
    (particlesMC : List McParticle) (candidate : CandidateMC) : List Fill :=
  TaskD0MC.processCandidate e h m cfg particlesMC [] candidate

/-! ## Histogram declarations -/

/-- The histogram types the tasks declare. -/
inductive HistType where
  | kTH1F
  | kTH2F
deriving DecidableEq

/-- One declared histogram: its name, its type and the number of axes given for it (titles
and binning are left out). -/
structure HistogramSpec where
  name : String
  type : HistType
  axes : Nat
deriving DecidableEq

/-- The declarations held by a registry, in declaration order. -/
abbrev HistogramSpecs := List HistogramSpec

/-- The call `registry.add(name, title, {type, {axes...}})` appends one declaration. -/
def HistogramSpecs.add (registry : HistogramSpecs) (name : String) (type : HistType)
    (axes : Nat) : HistogramSpecs :=
  registry ++ [⟨name, type, axes⟩]

/-- The initialiser of `TaskD0::registry` (lines 39-43). -/
def TaskD0.registry : HistogramSpecs :=
  [⟨"hptcand", HistType.kTH1F, 1⟩,
   ⟨"hptprong0", HistType.kTH1F, 1⟩,
   ⟨"hptprong1", HistType.kTH1F, 1⟩]

/-- The function `TaskD0::init` (lines 50-67). -/
def TaskD0.init (registry : HistogramSpecs) : HistogramSpecs :=
  let registry := registry.add "hmass" HistType.kTH2F 2
  let registry := registry.add "hdeclength" HistType.kTH2F 2
  let registry := registry.add "hdeclengthxy" HistType.kTH2F 2
  let registry := registry.add "hd0Prong0" HistType.kTH2F 2
  let registry := registry.add "hd0Prong1" HistType.kTH2F 2
  let registry := registry.add "hd0d0" HistType.kTH2F 2
  let registry := registry.add "hCTS" HistType.kTH2F 2
  let registry := registry.add "hCt" HistType.kTH2F 2
  let registry := registry.add "hCPA" HistType.kTH2F 2
  let registry := registry.add "hEta" HistType.kTH2F 2
  let registry := registry.add "hselectionstatus" HistType.kTH2F 2
  let registry := registry.add "hImpParErr" HistType.kTH2F 2
  let registry := registry.add "hDecLenErr" HistType.kTH2F 2
  let registry := registry.add "hDecLenXYErr" HistType.kTH2F 2
  registry

/-- The histograms `TaskD0` has declared once `init` has run. -/
def TaskD0.declared : HistogramSpecs :=
  TaskD0.init TaskD0.registry

/-- The initialiser of `TaskD0MC::registry` (lines 111-125). -/
def TaskD0MC.registry : HistogramSpecs :=
  [⟨"hPtRecSig", HistType.kTH1F, 1⟩,
   ⟨"hPtRecSigPrompt", HistType.kTH1F, 1⟩,
   ⟨"hPtRecSigNonPrompt", HistType.kTH1F, 1⟩,
   ⟨"hPtRecBg", HistType.kTH1F, 1⟩,
   ⟨"hPtGen", HistType.kTH1F, 1⟩,
   ⟨"hPtGenPrompt", HistType.kTH1F, 1⟩,
   ⟨"hPtGenNonPrompt", HistType.kTH1F, 1⟩,
   ⟨"hPtGenSig", HistType.kTH1F, 1⟩,
   ⟨"hCPARecSig", HistType.kTH1F, 1⟩,
   ⟨"hCPARecBg", HistType.kTH1F, 1⟩,
   ⟨"hEtaRecSig", HistType.kTH1F, 1⟩,
   ⟨"hEtaRecBg", HistType.kTH1F, 1⟩,
   ⟨"hEtaGen", HistType.kTH1F, 1⟩]

/-- The function `TaskD0MC::init` (lines 132-164). -/
def TaskD0MC.init (registry : HistogramSpecs) : HistogramSpecs :=
  let registry := registry.add "hCPA2DRecSig" HistType.kTH2F 2
  let registry := registry.add "hCPA2DRecBg" HistType.kTH2F 2
  let registry := registry.add "hIPPRecSig" HistType.kTH2F 2
  let registry := registry.add "hIPPRecBg" HistType.kTH2F 2
  let registry := registry.add "hCPAXYRecSig" HistType.kTH2F 2
  let registry := registry.add "hCPAXYRecBg" HistType.kTH2F 2
  let registry := registry.add "hDeclengthXYRecSig" HistType.kTH2F 2
  let registry := registry.add "hDeclengthXYRecBg" HistType.kTH2F 2
  let registry := registry.add "hDeclengthRecSig" HistType.kTH2F 2
  let registry := registry.add "hDeclengthRecBg" HistType.kTH2F 2
  let registry := registry.add "hDeclengthNormRecSig" HistType.kTH2F 2
  let registry := registry.add "hDeclengthNormRecBg" HistType.kTH2F 2
  let registry := registry.add "hCTSRecSig" HistType.kTH2F 2
  let registry := registry.add "hCTSRecBg" HistType.kTH2F 2
  let registry := registry.add "hpionpTRecSig" HistType.kTH2F 2
  let registry := registry.add "hpionpTRecBg" HistType.kTH2F 2
  let registry := registry.add "hkaonpTRecSig" HistType.kTH2F 2
  let registry := registry.add "hkaonpTRecBg" HistType.kTH2F 2
  let registry := registry.add "hDCAkaonRecSig" HistType.kTH2F 2
  let registry := registry.add "hDCAkaonRecBg" HistType.kTH2F 2
  let registry := registry.add "hDCApionRecSig" HistType.kTH2F 2
  let registry := registry.add "hDCApionRecBg" HistType.kTH2F 2
  let registry := registry.add "hmass2DRecSig" HistType.kTH2F 2
  let registry := registry.add "hmass2DRecBg" HistType.kTH2F 2
  let registry := registry.add "hDCAkaonNormRecSig" HistType.kTH2F 2
  let registry := registry.add "hDCAkaonNormRecBg" HistType.kTH2F 2
  let registry := registry.add "hDCApionNormRecSig" HistType.kTH2F 2
  let registry := registry.add "hDCApionNormRecBg" HistType.kTH2F 2
  registry

/-- The histograms `TaskD0MC` has declared once `init` has run. -/
def TaskD0MC.declared : HistogramSpecs :=
  TaskD0MC.init TaskD0MC.registry

/-- The fills one particle adds when the generated loop of `TaskD0MC::process` handles it. -/
def TaskD0MC.particleObservations (e : Enums) (m : McHelpers) (cfg : Config)
    (particle : McParticle) : List Fill :=
  TaskD0MC.processParticle e m cfg [] particle

/-! ## Vocabulary of the specification -/

/-- The decay-flag step lets the candidate through: bit `D0ToPiK` of `hfflag` is set. -/
def passesDecayFlag (e : Enums) (candidate : Candidate) : Prop :=
  candidate.hfflag.testBit e.D0ToPiK = true

/-- The rapidity step rejects: a cutoff is configured and the rapidity magnitude exceeds it. -/
def rapidityRejects (h : Helpers) (cfg : Config) (candidate : Candidate) : Prop :=
  0 ≤ cfg.cutYCandMax ∧ cfg.cutYCandMax < |h.YD0 candidate|

instance (e : Enums) (candidate : Candidate) : Decidable (passesDecayFlag e candidate) := by
  unfold passesDecayFlag; infer_instance

instance (h : Helpers) (cfg : Config) (candidate : Candidate) :
    Decidable (rapidityRejects h cfg candidate) := by
  unfold rapidityRejects; infer_instance

/-- The candidate survives the decay-flag and rapidity steps. -/
def survives (e : Enums) (h : Helpers) (cfg : Config) (candidate : Candidate) : Prop :=
  passesDecayFlag e candidate ∧ ¬ rapidityRejects h cfg candidate

instance (e : Enums) (h : Helpers) (cfg : Config) (candidate : Candidate) :
    Decidable (survives e h cfg candidate) := by
  unfold survives; infer_instance

/-- A distribution name of the signal population: it ends in "Sig", "SigPrompt" or
"SigNonPrompt". -/
def isSignalName (name : String) : Bool :=
  "Sig".toList.isSuffixOf name.toList || "SigPrompt".toList.isSuffixOf name.toList ||
    "SigNonPrompt".toList.isSuffixOf name.toList

/-- A distribution name of the background population: it ends in "Bg". -/
def isBackgroundName (name : String) : Bool :=
  "Bg".toList.isSuffixOf name.toList

/-- Replace the first "Sig" of a name by "Bg", on the characters. -/
def sigToBgChars : List Char → List Char
  | 'S' :: 'i' :: 'g' :: rest => 'B' :: 'g' :: rest
  | c :: rest => c :: sigToBgChars rest
  | [] => []

/-- The renaming of a signal distribution name to its background counterpart. -/
def sigToBg (name : String) : String :=
  String.mk (sigToBgChars name.toList)

/-- Retag one fill as background: same values, renamed distribution. -/
def Fill.toBackground (o : Fill) : Fill :=
  ⟨sigToBg o.name, o.values⟩

/-- The row with prong 0 and prong 1 exchanged in the columns the hypothesis blocks read. -/
def Candidate.swapProngs (c : Candidate) : Candidate :=
  { c with
    ptProng0 := c.ptProng1
    ptProng1 := c.ptProng0
    impactParameter0 := c.impactParameter1
    impactParameter1 := c.impactParameter0
    impactParameterNormalised0 := c.impactParameterNormalised1
    impactParameterNormalised1 := c.impactParameterNormalised0 }

/-- The MC row with prong 0 and prong 1 exchanged. -/
def CandidateMC.swapProngs (c : CandidateMC) : CandidateMC :=
  { c with toCandidate := c.toCandidate.swapProngs }

/-- The helpers with the two mass hypotheses exchanged along the prong exchange: the D0 mass of
a row is the original D0bar mass of the row with its prongs exchanged back, and conversely. -/
def Helpers.swapMass (h : Helpers) : Helpers :=
  { h with
    InvMassD0 := fun c => h.InvMassD0bar c.swapProngs
    InvMassD0bar := fun c => h.InvMassD0 c.swapProngs }

/-- The hypothesis-specific set of the specification: the mass, then pion and kaon transverse
momentum, impact parameter and normalised impact parameter, all against pt, in the
distributions tagged by `tag` ("Sig" or "Bg"). -/
def hypothesisFills (tag : String) (mass pt pionPt kaonPt pionDCA kaonDCA pionDCANorm
    kaonDCANorm : ℚ) : List Fill :=
  [⟨"hmass2DRec" ++ tag, [mass, pt]⟩,
   ⟨"hpionpTRec" ++ tag, [pionPt, pt]⟩,
   ⟨"hkaonpTRec" ++ tag, [kaonPt, pt]⟩,
   ⟨"hDCApionRec" ++ tag, [pionDCA, pt]⟩,
   ⟨"hDCAkaonRec" ++ tag, [kaonDCA, pt]⟩,
   ⟨"hDCApionNormRec" ++ tag, [pionDCANorm, pt]⟩,
   ⟨"hDCAkaonNormRec" ++ tag, [kaonDCANorm, pt]⟩]

/-- The 17 fills that `TaskD0::process` makes for every surviving candidate, as the
specification lists them. -/
def unconditionalFills (h : Helpers) (c : Candidate) : List Fill :=
  [⟨"hptcand", [c.pt]⟩,
   ⟨"hptprong0", [c.ptProng0]⟩,
   ⟨"hptprong1", [c.ptProng1]⟩,
   ⟨"hdeclength", [c.decayLength, c.pt]⟩,
   ⟨"hdeclengthxy", [c.decayLengthXY, c.pt]⟩,
   ⟨"hd0Prong0", [c.impactParameter0, c.pt]⟩,
   ⟨"hd0Prong1", [c.impactParameter1, c.pt]⟩,
   ⟨"hd0d0", [c.impactParameterProduct, c.pt]⟩,
   ⟨"hCTS", [h.CosThetaStarD0 c, c.pt]⟩,
   ⟨"hCt", [h.CtD0 c, c.pt]⟩,
   ⟨"hCPA", [c.cpa, c.pt]⟩,
   ⟨"hEta", [c.eta, c.pt]⟩,
   ⟨"hselectionstatus", [((TaskD0.selectionStatus c : Int) : ℚ), c.pt]⟩,
   ⟨"hImpParErr", [c.errorImpactParameter0, c.pt]⟩,
   ⟨"hImpParErr", [c.errorImpactParameter1, c.pt]⟩,
   ⟨"hDecLenErr", [c.errorDecayLength, c.pt]⟩,
   ⟨"hDecLenXYErr", [c.errorDecayLengthXY, c.pt]⟩]

/-- The mass fills of `TaskD0::process`, as the specification states them: the D0 mass when
isSelD0 meets its threshold, then the D0bar mass when isSelD0bar meets its threshold. -/
def massFills (h : Helpers) (cfg : Config) (c : Candidate) : List Fill :=
  (if c.isSelD0 ≥ cfg.d_selectionFlagD0 then [⟨"hmass", [h.InvMassD0 c, c.pt]⟩] else [])
    ++ (if c.isSelD0bar ≥ cfg.d_selectionFlagD0bar then
          [⟨"hmass", [h.InvMassD0bar c, c.pt]⟩] else [])

/-- The generated transverse momentum of the mother of a matched candidate, through the
look-ups of lines 183-185. -/
def motherPt (m : McHelpers) (particlesMC : List McParticle) (c : CandidateMC) : ℚ :=
  (m.iteratorAt particlesMC (m.getMother particlesMC (m.trackMcParticle c.index0))).pt

/-- The nine kinematic and vertexing fills both branches of the reconstructed loop make, in the
distributions tagged by `tag` ("Sig" or "Bg"). -/
def kinematicFills (tag : String) (h : Helpers) (c : CandidateMC) : List Fill :=
  [⟨"hCPARec" ++ tag, [c.cpa]⟩,
   ⟨"hEtaRec" ++ tag, [c.eta]⟩,
   ⟨"hCPA2DRec" ++ tag, [c.cpa, c.pt]⟩,
   ⟨"hIPPRec" ++ tag, [c.impactParameterProduct, c.pt]⟩,
   ⟨"hCPAXYRec" ++ tag, [c.cpaXY, c.pt]⟩,
   ⟨"hDeclengthXYRec" ++ tag, [c.decayLengthXYNormalised, c.pt]⟩,
   ⟨"hDeclengthRec" ++ tag, [c.decayLength, c.pt]⟩,
   ⟨"hDeclengthNormRec" ++ tag, [c.decayLengthNormalised, c.pt]⟩,
   ⟨"hCTSRec" ++ tag, [h.CosThetaStarD0 c.toCandidate, c.pt]⟩]

/-- The hypothesis-gated fills of a branch: the D0 set (pion = prong 0, kaon = prong 1) when
isSelD0 meets its threshold, then the D0bar set (pion = prong 1, kaon = prong 0) when
isSelD0bar meets its threshold. -/
def gatedFills (tag : String) (h : Helpers) (cfg : Config) (c : CandidateMC) : List Fill :=
  (if c.isSelD0 ≥ cfg.d_selectionFlagD0 then
      hypothesisFills tag (h.InvMassD0 c.toCandidate) c.pt c.ptProng0 c.ptProng1
        c.impactParameter0 c.impactParameter1 c.impactParameterNormalised0
        c.impactParameterNormalised1
    else [])
  ++ (if c.isSelD0bar ≥ cfg.d_selectionFlagD0bar then
      hypothesisFills tag (h.InvMassD0bar c.toCandidate) c.pt c.ptProng1 c.ptProng0
        c.impactParameter1 c.impactParameter0 c.impactParameterNormalised1
        c.impactParameterNormalised0
    else [])

/-- The three transverse-momentum fills that open the matched branch. -/
def signalPtFills (e : Enums) (m : McHelpers) (particlesMC : List McParticle)
    (c : CandidateMC) : List Fill :=
  [⟨"hPtGenSig", [motherPt m particlesMC c]⟩,
   ⟨"hPtRecSig", [c.pt]⟩,
   ⟨if c.originMCRec = e.Prompt then "hPtRecSigPrompt" else "hPtRecSigNonPrompt", [c.pt]⟩]

/-! ## Sample inputs -/

/-- Sample enumerator values. -/
def sampleEnums : Enums := ⟨0, 1, 2⟩

/-- Sample helper functions: rapidity 0.3 for every candidate. -/
def sampleHelpers : Helpers :=
  { YD0 := fun _ => 3 / 10
    InvMassD0 := fun _ => 93 / 50
    InvMassD0bar := fun _ => 12 / 5
    CosThetaStarD0 := fun _ => 1 / 4
    CtD0 := fun _ => 1 / 50 }

/-- Sample configuration: both thresholds 1, rapidity cutoff 0.5. -/
def sampleConfig : Config := ⟨1, 1, 1 / 2⟩

/-- Sample candidate: flag bit 0 set, isSelD0 = 1, isSelD0bar = 0. -/
def sampleCandidate : Candidate :=
  { index0 := 0
    hfflag := 1
    isSelD0 := 1
    isSelD0bar := 0
    pt := 5
    ptProng0 := 3
    ptProng1 := 2
    eta := 1 / 2
    cpa := 9 / 10
    cpaXY := 4 / 5
    decayLength := 1 / 10
    decayLengthXY := 1 / 20
    decayLengthNormalised := 7
    decayLengthXYNormalised := 6
    impactParameter0 := 1 / 100
    impactParameter1 := -1 / 200
    impactParameterNormalised0 := 11
    impactParameterNormalised1 := -13
    impactParameterProduct := -1 / 20000
    errorImpactParameter0 := 1 / 1000
    errorImpactParameter1 := 1 / 500
    errorDecayLength := 1 / 40
    errorDecayLengthXY := 1 / 80 }

/-- Sample MC look-ups: every look-up leads to the row found at the mother index. -/
def sampleMcHelpers : McHelpers :=
  { trackMcParticle := fun _ => ⟨4, 0, 0, 0, 0, 211, 0, 0⟩
    getMother := fun _ _ => 0
    iteratorAt := fun ps i => (ps.get? i.toNat).getD ⟨0, 0, 0, 0, 0, 0, 0, 0⟩
    Y := fun _ _ pz _ => pz
    getMassPDG := fun _ => 93 / 50 }

/-- Sample particle table: one D0 mother with generated pt 6. -/
def sampleParticles : List McParticle := [⟨6, 1 / 5, 3, 4, 1, 421, 1, 1⟩]

/-- Sample matched MC candidate: truth-match flag -1, origin Prompt. -/
def sampleMatched : CandidateMC :=
  { sampleCandidate with flagMCMatchRec := -1, originMCRec := 1 }

/-- Sample unmatched MC candidate with the same candidate columns: truth-match flag 0. -/
def sampleUnmatched : CandidateMC :=
  { sampleCandidate with flagMCMatchRec := 0, originMCRec := 0 }

/-- Sample candidate whose scores are 2 and 1. -/
def sampleHighScores : Candidate :=
  { sampleCandidate with isSelD0 := 2, isSelD0bar := 1 }

/-- Sample candidate whose scores are both 0, below the thresholds of `sampleConfig`. -/
def sampleLowScores : Candidate :=
  { sampleCandidate with isSelD0 := 0, isSelD0bar := 0 }

/-- Sample MC candidate passing both hypotheses. -/
def sampleBothMatched : CandidateMC :=
  { sampleCandidate with isSelD0 := 1, isSelD0bar := 1, flagMCMatchRec := 1, originMCRec := 2 }

/-- The fill is made on a histogram declared in `declared`, with as many values as axes were
given for it: one value on a histogram declared kTH1F, or two values on one declared kTH2F. -/
def Fill.declaredIn (declared : HistogramSpecs) (o : Fill) : Prop :=
  ∃ d ∈ declared, d.name = o.name ∧ d.axes = o.values.length
    ∧ ((o.values.length = 1 ∧ d.type = HistType.kTH1F)
      ∨ (o.values.length = 2 ∧ d.type = HistType.kTH2F))

/-- The executable form of `Fill.declaredIn`, on the name and the number of values. -/
def declaredCheck (declared : HistogramSpecs) (name : String) (n : Nat) : Bool :=
  declared.any (fun d => decide (d.name = name) && decide (d.axes = n)
    && ((decide (n = 1) && decide (d.type = HistType.kTH1F))
      || (decide (n = 2) && decide (d.type = HistType.kTH2F))))

/-- Sample configuration with the default rapidity cutoff -1 (disabled). -/
def sampleConfigNoCut : Config := ⟨1, 1, -1⟩

/-- Sample candidate passing both hypotheses. -/
def sampleBoth : Candidate :=
  { sampleCandidate with isSelD0 := 1, isSelD0bar := 1 }

/-- Sample unmatched MC candidate passing both hypotheses. -/
def sampleBothUnmatched : CandidateMC :=
  { sampleCandidate with isSelD0 := 1, isSelD0bar := 1, flagMCMatchRec := 0, originMCRec := 0 }

/-- Sample candidate table of the MC task: a matched Prompt row, a matched NonPrompt row
passing both hypotheses, an unmatched row passing both hypotheses. -/
def sampleTableMC : List CandidateMC :=
  [sampleMatched, sampleBothMatched, sampleBothUnmatched]

/-- Sample particle table with a matched Prompt particle, a matched NonPrompt particle and an
unmatched particle. -/
def sampleGenParticles : List McParticle :=
  [⟨6, 1 / 5, 3, 4, 1, 421, 1, 1⟩, ⟨7, -1 / 5, 3, 4, 1, -421, -1, 2⟩,
   ⟨8, 0, 1, 1, 1, 211, 0, 0⟩]

/-! ## Shared lemmas -/

theorem and_one_shiftLeft_eq_zero_iff (n k : Nat) :
    (n &&& (1 <<< k)) = 0 ↔ n.testBit k = false := by
  rw [Nat.one_shiftLeft, Nat.and_two_pow]
  cases n.testBit k <;> simp

theorem int32_of_inRange (x : Int) (hlo : -2147483648 ≤ x) (hhi : x < 2147483648) :
    int32 x = x := by
  unfold int32
  omega

theorem TaskD0.selectionStatus_eq (c : Candidate) (h0 : 0 ≤ c.isSelD0) (h1 : 0 ≤ c.isSelD0bar)
    (hlt : c.isSelD0 + 2 * c.isSelD0bar < 2147483648) :
    TaskD0.selectionStatus c = c.isSelD0 + 2 * c.isSelD0bar := by
  unfold TaskD0.selectionStatus
  rw [int32_of_inRange (c.isSelD0bar * 2) (by omega) (by omega),
    int32_of_inRange _ (by omega) (by omega)]
  ring

theorem TaskD0.selectionStatus_wraps (c : Candidate) :
    (c.isSelD0 = 2 → c.isSelD0bar = 2147483647 → TaskD0.selectionStatus c = 0)
      ∧ (c.isSelD0 = 1 → c.isSelD0bar = 1073741824 →
          TaskD0.selectionStatus c = -2147483647) := by
  unfold TaskD0.selectionStatus int32
  constructor <;> intro h0 h1 <;> rw [h0, h1] <;> decide

theorem sampleCandidate_selectionStatus : TaskD0.selectionStatus sampleCandidate = 1 := by
  decide

theorem sampleHighScores_selectionStatus : TaskD0.selectionStatus sampleHighScores = 4 := by
  decide

theorem TaskD0.processCandidate_survivor (e : Enums) (h : Helpers) (cfg : Config)
    (registry : HistogramRegistry) (c : Candidate)
    (hflag : passesDecayFlag e c) (hy : ¬ rapidityRejects h cfg c) :
    TaskD0.processCandidate e h cfg registry c =
      registry ++ (massFills h cfg c ++ unconditionalFills h c) := by
  have h1 : ¬ (c.hfflag &&& (1 <<< e.D0ToPiK)) = 0 := by
    rw [and_one_shiftLeft_eq_zero_iff]; unfold passesDecayFlag at hflag; simp [hflag]
  have h2 : ¬ (cfg.cutYCandMax ≥ 0 ∧ |h.YD0 c| > cfg.cutYCandMax) := hy
  unfold TaskD0.processCandidate
  rw [if_neg h1, if_neg h2]
  by_cases hd : c.isSelD0 ≥ cfg.d_selectionFlagD0 <;>
    by_cases hb : c.isSelD0bar ≥ cfg.d_selectionFlagD0bar <;>
    simp [HistogramRegistry.fill, massFills, unconditionalFills, hd, hb]

theorem TaskD0.processCandidate_no_flag (e : Enums) (h : Helpers) (cfg : Config)
    (registry : HistogramRegistry) (c : Candidate) (hflag : ¬ passesDecayFlag e c) :
    TaskD0.processCandidate e h cfg registry c = registry := by
  have h1 : (c.hfflag &&& (1 <<< e.D0ToPiK)) = 0 := by
    rw [and_one_shiftLeft_eq_zero_iff]; unfold passesDecayFlag at hflag; simpa using hflag
  unfold TaskD0.processCandidate
  rw [if_pos h1]

theorem TaskD0.processCandidate_rapidity (e : Enums) (h : Helpers) (cfg : Config)
    (registry : HistogramRegistry) (c : Candidate) (hy : rapidityRejects h cfg c) :
    TaskD0.processCandidate e h cfg registry c = registry := by
  have h2 : cfg.cutYCandMax ≥ 0 ∧ |h.YD0 c| > cfg.cutYCandMax := hy
  unfold TaskD0.processCandidate
  rw [if_pos h2]
  simp

theorem TaskD0.processCandidate_eq_append (e : Enums) (h : Helpers) (cfg : Config)
    (registry : HistogramRegistry) (c : Candidate) :
    TaskD0.processCandidate e h cfg registry c = registry ++ TaskD0.observations e h cfg c := by
  unfold TaskD0.observations
  by_cases hflag : passesDecayFlag e c
  · by_cases hy : rapidityRejects h cfg c
    · simp [TaskD0.processCandidate_rapidity e h cfg _ c hy]
    · simp [TaskD0.processCandidate_survivor e h cfg _ c hflag hy]
  · simp [TaskD0.processCandidate_no_flag e h cfg _ c hflag]

theorem TaskD0MC.signalD0_eq (h : Helpers) (registry : HistogramRegistry) (c : CandidateMC) :
    TaskD0MC.signalD0 h registry c =
      registry ++ hypothesisFills "Sig" (h.InvMassD0 c.toCandidate) c.pt c.ptProng0 c.ptProng1
        c.impactParameter0 c.impactParameter1 c.impactParameterNormalised0
        c.impactParameterNormalised1 := by
  simp [TaskD0MC.signalD0, HistogramRegistry.fill, hypothesisFills]

theorem TaskD0MC.signalD0bar_eq (h : Helpers) (registry : HistogramRegistry) (c : CandidateMC) :
    TaskD0MC.signalD0bar h registry c =
      registry ++ hypothesisFills "Sig" (h.InvMassD0bar c.toCandidate) c.pt c.ptProng1 c.ptProng0
        c.impactParameter1 c.impactParameter0 c.impactParameterNormalised1
        c.impactParameterNormalised0 := by
  simp [TaskD0MC.signalD0bar, HistogramRegistry.fill, hypothesisFills]

theorem TaskD0MC.backgroundD0_eq (h : Helpers) (registry : HistogramRegistry)
    (c : CandidateMC) :
    TaskD0MC.backgroundD0 h registry c =
      registry ++ hypothesisFills "Bg" (h.InvMassD0 c.toCandidate) c.pt c.ptProng0 c.ptProng1
        c.impactParameter0 c.impactParameter1 c.impactParameterNormalised0
        c.impactParameterNormalised1 := by
  simp [TaskD0MC.backgroundD0, HistogramRegistry.fill, hypothesisFills]

theorem TaskD0MC.backgroundD0bar_eq (h : Helpers) (registry : HistogramRegistry)
    (c : CandidateMC) :
    TaskD0MC.backgroundD0bar h registry c =
      registry ++ hypothesisFills "Bg" (h.InvMassD0bar c.toCandidate) c.pt c.ptProng1 c.ptProng0
        c.impactParameter1 c.impactParameter0 c.impactParameterNormalised1
        c.impactParameterNormalised0 := by
  simp [TaskD0MC.backgroundD0bar, HistogramRegistry.fill, hypothesisFills]

theorem TaskD0MC.signalBranch_eq (e : Enums) (h : Helpers) (m : McHelpers) (cfg : Config)
    (particlesMC : List McParticle) (registry : HistogramRegistry) (c : CandidateMC) :
    TaskD0MC.signalBranch e h m cfg particlesMC registry c =
      registry ++ (signalPtFills e m particlesMC c ++ kinematicFills "Sig" h c
        ++ gatedFills "Sig" h cfg c) := by
  unfold TaskD0MC.signalBranch
  simp only [TaskD0MC.signalD0_eq, TaskD0MC.signalD0bar_eq]
  by_cases ho : c.originMCRec = e.Prompt <;>
    by_cases hd : c.isSelD0 ≥ cfg.d_selectionFlagD0 <;>
    by_cases hb : c.isSelD0bar ≥ cfg.d_selectionFlagD0bar <;>
    simp [HistogramRegistry.fill, signalPtFills, kinematicFills, gatedFills, motherPt, ho, hd, hb]

theorem TaskD0MC.backgroundBranch_eq (h : Helpers) (cfg : Config)
    (registry : HistogramRegistry) (c : CandidateMC) :
    TaskD0MC.backgroundBranch h cfg registry c =
      registry ++ ((⟨"hPtRecBg", [c.pt]⟩ : Fill) :: kinematicFills "Bg" h c
        ++ gatedFills "Bg" h cfg c) := by
  unfold TaskD0MC.backgroundBranch
  simp only [TaskD0MC.backgroundD0_eq, TaskD0MC.backgroundD0bar_eq]
  by_cases hd : c.isSelD0 ≥ cfg.d_selectionFlagD0 <;>
    by_cases hb : c.isSelD0bar ≥ cfg.d_selectionFlagD0bar <;>
    simp [HistogramRegistry.fill, kinematicFills, gatedFills, hd, hb]

theorem TaskD0MC.recLoop_no_flag (e : Enums) (h : Helpers) (m : McHelpers)
    (cfg : Config) (particlesMC : List McParticle) (registry : HistogramRegistry)
    (c : CandidateMC) (hflag : ¬ passesDecayFlag e c.toCandidate) :
    TaskD0MC.processCandidate e h m cfg particlesMC registry c = registry := by
  have h1 : (c.hfflag &&& (1 <<< e.D0ToPiK)) = 0 := by
    rw [and_one_shiftLeft_eq_zero_iff]; unfold passesDecayFlag at hflag; simpa using hflag
  unfold TaskD0MC.processCandidate
  rw [if_pos h1]

theorem TaskD0MC.recLoop_rapidity (e : Enums) (h : Helpers) (m : McHelpers)
    (cfg : Config) (particlesMC : List McParticle) (registry : HistogramRegistry)
    (c : CandidateMC) (hy : rapidityRejects h cfg c.toCandidate) :
    TaskD0MC.processCandidate e h m cfg particlesMC registry c = registry := by
  have h2 : cfg.cutYCandMax ≥ 0 ∧ |h.YD0 c.toCandidate| > cfg.cutYCandMax := hy
  unfold TaskD0MC.processCandidate
  rw [if_pos h2]
  simp

theorem TaskD0MC.recLoop_matched (e : Enums) (h : Helpers) (m : McHelpers)
    (cfg : Config) (particlesMC : List McParticle) (registry : HistogramRegistry)
    (c : CandidateMC) (hs : survives e h cfg c.toCandidate) (hm : TaskD0MC.isMatched e c) :
    TaskD0MC.processCandidate e h m cfg particlesMC registry c =
      registry ++ (signalPtFills e m particlesMC c ++ kinematicFills "Sig" h c
        ++ gatedFills "Sig" h cfg c) := by
  have h1 : ¬ (c.hfflag &&& (1 <<< e.D0ToPiK)) = 0 := by
    rw [and_one_shiftLeft_eq_zero_iff]
    have := hs.1
    unfold passesDecayFlag at this
    simp [this]
  have h2 : ¬ (cfg.cutYCandMax ≥ 0 ∧ |h.YD0 c.toCandidate| > cfg.cutYCandMax) := hs.2
  unfold TaskD0MC.processCandidate
  rw [if_neg h1, if_neg h2, if_pos hm, TaskD0MC.signalBranch_eq]

theorem TaskD0MC.recLoop_unmatched (e : Enums) (h : Helpers) (m : McHelpers)
    (cfg : Config) (particlesMC : List McParticle) (registry : HistogramRegistry)
    (c : CandidateMC) (hs : survives e h cfg c.toCandidate) (hm : ¬ TaskD0MC.isMatched e c) :
    TaskD0MC.processCandidate e h m cfg particlesMC registry c =
      registry ++ ((⟨"hPtRecBg", [c.pt]⟩ : Fill) :: kinematicFills "Bg" h c
        ++ gatedFills "Bg" h cfg c) := by
  have h1 : ¬ (c.hfflag &&& (1 <<< e.D0ToPiK)) = 0 := by
    rw [and_one_shiftLeft_eq_zero_iff]
    have := hs.1
    unfold passesDecayFlag at this
    simp [this]
  have h2 : ¬ (cfg.cutYCandMax ≥ 0 ∧ |h.YD0 c.toCandidate| > cfg.cutYCandMax) := hs.2
  unfold TaskD0MC.processCandidate
  rw [if_neg h1, if_neg h2, if_neg hm, TaskD0MC.backgroundBranch_eq]

theorem TaskD0MC.recLoop_eq_append (e : Enums) (h : Helpers) (m : McHelpers)
    (cfg : Config) (particlesMC : List McParticle) (registry : HistogramRegistry)
    (c : CandidateMC) :
    TaskD0MC.processCandidate e h m cfg particlesMC registry c =
      registry ++ TaskD0MC.observations e h m cfg particlesMC c := by
  unfold TaskD0MC.observations
  by_cases hs : survives e h cfg c.toCandidate
  · by_cases hm : TaskD0MC.isMatched e c
    · simp [TaskD0MC.recLoop_matched e h m cfg particlesMC _ c hs hm]
    · simp [TaskD0MC.recLoop_unmatched e h m cfg particlesMC _ c hs hm]
  · unfold survives at hs
    by_cases hflag : passesDecayFlag e c.toCandidate
    · have hy : rapidityRejects h cfg c.toCandidate := by
        by_contra hn; exact hs ⟨hflag, hn⟩
      simp [TaskD0MC.recLoop_rapidity e h m cfg particlesMC _ c hy]
    · simp [TaskD0MC.recLoop_no_flag e h m cfg particlesMC _ c hflag]

theorem TaskD0.process_eq_append (e : Enums) (h : Helpers) (cfg : Config)
    (candidates : List Candidate) (registry : HistogramRegistry) :
    TaskD0.process e h cfg registry candidates =
      registry ++ (candidates.map (TaskD0.observations e h cfg)).flatten := by
  unfold TaskD0.process
  induction candidates generalizing registry with
  | nil => simp
  | cons c cs ih =>
    rw [List.foldl_cons, ih, TaskD0.processCandidate_eq_append]
    simp

theorem TaskD0MC.recLoop_foldl_eq_append (e : Enums) (h : Helpers) (m : McHelpers)
    (cfg : Config) (particlesMC : List McParticle) (candidates : List CandidateMC)
    (registry : HistogramRegistry) :
    candidates.foldl (TaskD0MC.processCandidate e h m cfg particlesMC) registry =
      registry ++ (candidates.map (TaskD0MC.observations e h m cfg particlesMC)).flatten := by
  induction candidates generalizing registry with
  | nil => simp
  | cons c cs ih =>
    rw [List.foldl_cons, ih, TaskD0MC.recLoop_eq_append]
    simp

theorem TaskD0MC.processParticle_eq_append (e : Enums) (m : McHelpers) (cfg : Config)
    (registry : HistogramRegistry) (p : McParticle) :
    TaskD0MC.processParticle e m cfg registry p =
      registry ++ TaskD0MC.particleObservations e m cfg p := by
  unfold TaskD0MC.particleObservations TaskD0MC.processParticle
  by_cases hf : |p.flagMCMatchGen| = ((1 <<< e.D0ToPiK : Nat) : Int)
  · by_cases hy : cfg.cutYCandMax ≥ 0 ∧
        |m.Y p.px p.py p.pz (m.getMassPDG p.pdgCode)| > cfg.cutYCandMax
    · simp [hf, hy]
    · by_cases ho : p.originMCGen = e.Prompt <;>
        simp [hf, hy, ho, HistogramRegistry.fill]
  · simp [hf]

theorem TaskD0MC.genLoop_foldl_eq_append (e : Enums) (m : McHelpers) (cfg : Config)
    (particlesMC : List McParticle) (registry : HistogramRegistry) :
    particlesMC.foldl (TaskD0MC.processParticle e m cfg) registry =
      registry ++ (particlesMC.map (TaskD0MC.particleObservations e m cfg)).flatten := by
  induction particlesMC generalizing registry with
  | nil => simp
  | cons p ps ih =>
    rw [List.foldl_cons, ih, TaskD0MC.processParticle_eq_append]
    simp

theorem declaredIn_of_check (declared : HistogramSpecs) (o : Fill)
    (hc : declaredCheck declared o.name o.values.length = true) : o.declaredIn declared := by
  unfold declaredCheck at hc
  rw [List.any_eq_true] at hc
  obtain ⟨d, hd, hcond⟩ := hc
  simp only [Bool.and_eq_true, Bool.or_eq_true, decide_eq_true_eq] at hcond
  exact ⟨d, hd, hcond.1.1, hcond.1.2, hcond.2⟩

theorem declaredIn_of_all (declared : HistogramSpecs) (fills : List Fill)
    (hall : (fills.map (fun o => (o.name, o.values.length))).all
      (fun x => declaredCheck declared x.1 x.2) = true) :
    ∀ o ∈ fills, o.declaredIn declared := by
  intro o ho
  apply declaredIn_of_check
  rw [List.all_eq_true] at hall
  exact hall (o.name, o.values.length) (List.mem_map.mpr ⟨o, ho, rfl⟩)

theorem TaskD0.observations_declared (e : Enums) (h : Helpers) (cfg : Config)
    (c : Candidate) : ∀ o ∈ TaskD0.observations e h cfg c, o.declaredIn TaskD0.declared := by
  by_cases hs : survives e h cfg c
  · unfold TaskD0.observations
    rw [TaskD0.processCandidate_survivor e h cfg [] c hs.1 hs.2]
    apply declaredIn_of_all
    by_cases hd : c.isSelD0 ≥ cfg.d_selectionFlagD0 <;>
      by_cases hb : c.isSelD0bar ≥ cfg.d_selectionFlagD0bar <;>
      simp only [massFills, unconditionalFills, hd, hb, if_true, if_false, List.nil_append,
        List.append_nil, List.map_append, List.map_cons, List.map_nil, List.cons_append,
        List.length_cons, List.length_nil, not_false_eq_true, not_true_eq_false] <;>
      decide
  · have hnil : TaskD0.observations e h cfg c = [] := by
      unfold TaskD0.observations
      by_cases hflag : passesDecayFlag e c
      · have hy : rapidityRejects h cfg c := by
          by_contra hn; exact hs ⟨hflag, hn⟩
        exact TaskD0.processCandidate_rapidity e h cfg [] c hy
      · exact TaskD0.processCandidate_no_flag e h cfg [] c hflag
    rw [hnil]
    intro o ho
    exact absurd ho (List.not_mem_nil o)

theorem TaskD0MC.recObservations_declared (e : Enums) (h : Helpers) (m : McHelpers)
    (cfg : Config) (particlesMC : List McParticle) (c : CandidateMC) :
    ∀ o ∈ TaskD0MC.observations e h m cfg particlesMC c, o.declaredIn TaskD0MC.declared := by
  by_cases hs : survives e h cfg c.toCandidate
  · unfold TaskD0MC.observations
    by_cases hm : TaskD0MC.isMatched e c
    · rw [TaskD0MC.recLoop_matched e h m cfg particlesMC [] c hs hm]
      apply declaredIn_of_all
      by_cases hor : c.originMCRec = e.Prompt <;>
        by_cases hd : c.isSelD0 ≥ cfg.d_selectionFlagD0 <;>
        by_cases hb : c.isSelD0bar ≥ cfg.d_selectionFlagD0bar <;>
        simp only [signalPtFills, kinematicFills, gatedFills, hypothesisFills, hor, hd, hb,
          if_true, if_false, List.nil_append, List.append_nil, List.map_append, List.map_cons,
          List.map_nil, List.cons_append, List.length_cons, List.length_nil,
          not_false_eq_true, not_true_eq_false] <;>
        decide
    · rw [TaskD0MC.recLoop_unmatched e h m cfg particlesMC [] c hs hm]
      apply declaredIn_of_all
      by_cases hd : c.isSelD0 ≥ cfg.d_selectionFlagD0 <;>
        by_cases hb : c.isSelD0bar ≥ cfg.d_selectionFlagD0bar <;>
        simp only [kinematicFills, gatedFills, hypothesisFills, hd, hb,
          if_true, if_false, List.nil_append, List.append_nil, List.map_append, List.map_cons,
          List.map_nil, List.cons_append, List.length_cons, List.length_nil,
          not_false_eq_true, not_true_eq_false] <;>
        decide
  · have hnil : TaskD0MC.observations e h m cfg particlesMC c = [] := by
      unfold TaskD0MC.observations
      by_cases hflag : passesDecayFlag e c.toCandidate
      · have hy : rapidityRejects h cfg c.toCandidate := by
          by_contra hn; exact hs ⟨hflag, hn⟩
        exact TaskD0MC.recLoop_rapidity e h m cfg particlesMC [] c hy
      · exact TaskD0MC.recLoop_no_flag e h m cfg particlesMC [] c hflag
    rw [hnil]
    intro o ho
    exact absurd ho (List.not_mem_nil o)

theorem TaskD0MC.particleObservations_declared (e : Enums) (m : McHelpers) (cfg : Config)
    (p : McParticle) :
    ∀ o ∈ TaskD0MC.particleObservations e m cfg p, o.declaredIn TaskD0MC.declared := by
  apply declaredIn_of_all
  unfold TaskD0MC.particleObservations TaskD0MC.processParticle
  by_cases hf : |p.flagMCMatchGen| = ((1 <<< e.D0ToPiK : Nat) : Int)
  · by_cases hy : cfg.cutYCandMax ≥ 0 ∧
        |m.Y p.px p.py p.pz (m.getMassPDG p.pdgCode)| > cfg.cutYCandMax
    · rw [if_pos hf, if_pos hy]
      decide
    · rw [if_pos hf, if_neg hy]
      by_cases ho : p.originMCGen = e.Prompt <;>
        simp only [HistogramRegistry.fill, ho, if_true, if_false, List.nil_append,
          List.append_nil, List.map_append, List.map_cons, List.map_nil, List.cons_append,
          List.length_cons, List.length_nil] <;>
        decide
  · rw [if_neg hf]
    decide

theorem names_all_iff (fills : List Fill) (p q : String → Bool) :
    (∀ o ∈ fills, p o.name = true ∧ q o.name = false) ↔
      (fills.map Fill.name).all (fun n => p n && !q n) = true := by
  simp [List.all_eq_true]

theorem Candidate.swapProngs_swapProngs (c : Candidate) : c.swapProngs.swapProngs = c := by
  cases c
  rfl

/-- Claim C1: for a candidate that passes the decay-flag and rapidity steps, the fills of "hmass"
are the D0 mass (exactly when isSelD0 meets its threshold) followed by the D0bar mass (exactly
when isSelD0bar meets its threshold), each with pt; their number is the number of hypotheses
whose score meets its threshold. -/
theorem TaskD0.hmass_observations (e : Enums) (h : Helpers) (cfg : Config) (c : Candidate)
    (hflag : passesDecayFlag e c) (hy : ¬ rapidityRejects h cfg c) :
    (TaskD0.observations e h cfg c).filter (fun o => o.name = "hmass") =
        (if c.isSelD0 ≥ cfg.d_selectionFlagD0 then
            [(⟨"hmass", [h.InvMassD0 c, c.pt]⟩ : Fill)] else [])
          ++ (if c.isSelD0bar ≥ cfg.d_selectionFlagD0bar then
            [(⟨"hmass", [h.InvMassD0bar c, c.pt]⟩ : Fill)] else [])
      ∧ ((TaskD0.observations e h cfg c).filter (fun o => o.name = "hmass")).length =
          (if c.isSelD0 ≥ cfg.d_selectionFlagD0 then 1 else 0)
            + (if c.isSelD0bar ≥ cfg.d_selectionFlagD0bar then 1 else 0) := by
  unfold TaskD0.observations
  rw [TaskD0.processCandidate_survivor e h cfg [] c hflag hy]
  by_cases hd : c.isSelD0 ≥ cfg.d_selectionFlagD0 <;>
    by_cases hb : c.isSelD0bar ≥ cfg.d_selectionFlagD0bar <;>
    simp [hd, hb, List.filter, massFills, unconditionalFills]

/-- Witness for claim C1: the sample candidate (isSelD0 = 1, isSelD0bar = 0, thresholds 1) has
exactly one "hmass" fill, the D0 mass. -/
theorem TaskD0.hmass_observations_witness :
    (TaskD0.observations sampleEnums sampleHelpers sampleConfig sampleCandidate).filter
        (fun o => o.name = "hmass") = [⟨"hmass", [93 / 50, 5]⟩] := by
  have key := (TaskD0.hmass_observations sampleEnums sampleHelpers sampleConfig sampleCandidate
    (by decide) (by norm_num [rapidityRejects, sampleHelpers, sampleConfig, lt_abs])).1
  rw [key]
  simp [sampleCandidate, sampleConfig, sampleHelpers]

/-- Claim C2: in both tasks a candidate whose decay flag has the D0ToPiK bit is rejected by the
rapidity step (no fill at all) exactly when cutYCandMax >= 0 and |YD0| > cutYCandMax; so a
negative cutoff never rejects and a rapidity magnitude equal to the cutoff is kept. -/
theorem rapidity_step_rejects_iff (e : Enums) (h : Helpers) (m : McHelpers) (cfg : Config)
    (particlesMC : List McParticle) (c : Candidate) (cm : CandidateMC)
    (hc : passesDecayFlag e c) (hcm : passesDecayFlag e cm.toCandidate) :
    (TaskD0.observations e h cfg c = [] ↔
        (cfg.cutYCandMax ≥ 0 ∧ |h.YD0 c| > cfg.cutYCandMax))
      ∧ (TaskD0MC.observations e h m cfg particlesMC cm = [] ↔
        (cfg.cutYCandMax ≥ 0 ∧ |h.YD0 cm.toCandidate| > cfg.cutYCandMax))
      ∧ (cfg.cutYCandMax < 0 →
          TaskD0.observations e h cfg c ≠ [] ∧
            TaskD0MC.observations e h m cfg particlesMC cm ≠ [])
      ∧ (|h.YD0 c| = cfg.cutYCandMax → TaskD0.observations e h cfg c ≠ [])
      ∧ (|h.YD0 cm.toCandidate| = cfg.cutYCandMax →
          TaskD0MC.observations e h m cfg particlesMC cm ≠ []) := by
  have base : TaskD0.observations e h cfg c = [] ↔ rapidityRejects h cfg c := by
    unfold TaskD0.observations
    constructor
    · intro hnil
      by_contra hy
      rw [TaskD0.processCandidate_survivor e h cfg [] c hc hy] at hnil
      simp [unconditionalFills] at hnil
    · intro hy
      exact TaskD0.processCandidate_rapidity e h cfg [] c hy
  have mc : TaskD0MC.observations e h m cfg particlesMC cm = [] ↔
      rapidityRejects h cfg cm.toCandidate := by
    unfold TaskD0MC.observations
    constructor
    · intro hnil
      by_contra hy
      by_cases hm : TaskD0MC.isMatched e cm
      · rw [TaskD0MC.recLoop_matched e h m cfg particlesMC [] cm ⟨hcm, hy⟩ hm] at hnil
        simp [signalPtFills] at hnil
      · rw [TaskD0MC.recLoop_unmatched e h m cfg particlesMC [] cm ⟨hcm, hy⟩ hm]
          at hnil
        simp at hnil
    · intro hy
      exact TaskD0MC.recLoop_rapidity e h m cfg particlesMC [] cm hy
  have unfoldR : ∀ x : Candidate, rapidityRejects h cfg x ↔
      (cfg.cutYCandMax ≥ 0 ∧ |h.YD0 x| > cfg.cutYCandMax) := fun x => Iff.rfl
  refine ⟨base.trans (unfoldR c), mc.trans (unfoldR cm.toCandidate), ?_, ?_, ?_⟩
  · intro hneg
    constructor
    · intro hnil
      exact absurd (base.mp hnil).1 (not_le.mpr hneg)
    · intro hnil
      exact absurd (mc.mp hnil).1 (not_le.mpr hneg)
  · intro heq hnil
    have := (base.mp hnil).2
    rw [heq] at this
    exact lt_irrefl _ this
  · intro heq hnil
    have := (mc.mp hnil).2
    rw [heq] at this
    exact lt_irrefl _ this

/-- Witness for claim C2: with rapidity 0.3 the sample candidate is kept under cutoff 0.5 and
rejected under cutoff 0.2, in both tasks. -/
theorem rapidity_step_rejects_iff_witness :
    (TaskD0.observations sampleEnums sampleHelpers sampleConfig sampleCandidate ≠ []
      ∧ TaskD0MC.observations sampleEnums sampleHelpers sampleMcHelpers sampleConfig
          sampleParticles sampleMatched ≠ [])
    ∧ (TaskD0.observations sampleEnums sampleHelpers ⟨1, 1, 1 / 5⟩ sampleCandidate = []
      ∧ TaskD0MC.observations sampleEnums sampleHelpers sampleMcHelpers ⟨1, 1, 1 / 5⟩
          sampleParticles sampleMatched = []) := by
  have keep := rapidity_step_rejects_iff sampleEnums sampleHelpers sampleMcHelpers sampleConfig
    sampleParticles sampleCandidate sampleMatched (by decide) (by decide)
  have drop := rapidity_step_rejects_iff sampleEnums sampleHelpers sampleMcHelpers ⟨1, 1, 1 / 5⟩
    sampleParticles sampleCandidate sampleMatched (by decide) (by decide)
  have hkeep : ¬ (sampleConfig.cutYCandMax ≥ 0 ∧
      |sampleHelpers.YD0 sampleCandidate| > sampleConfig.cutYCandMax) := by
    norm_num [sampleHelpers, sampleConfig, lt_abs]
  have hdrop : ((⟨1, 1, 1 / 5⟩ : Config).cutYCandMax ≥ 0 ∧
      |sampleHelpers.YD0 sampleCandidate| > (⟨1, 1, 1 / 5⟩ : Config).cutYCandMax) := by
    norm_num [sampleHelpers, lt_abs]
  refine ⟨⟨fun hnil => hkeep (keep.1.mp hnil), fun hnil => hkeep (keep.2.1.mp hnil)⟩,
    drop.1.mpr hdrop, drop.2.1.mpr hdrop⟩

/-- Claim C3: in both tasks a candidate emits nothing when bit D0ToPiK of hfflag is clear,
whatever its other columns; when the bit is set the decay-flag step does not reject, so the
candidate emits nothing only if the rapidity step rejects it. The bit tested is
hfflag & (1 << D0ToPiK). -/
theorem decay_flag_step (e : Enums) (h : Helpers) (m : McHelpers) (cfg : Config)
    (particlesMC : List McParticle) (c : Candidate) (cm : CandidateMC) :
    (TaskD0.observations e h cfg c = [] ↔
        (c.hfflag.testBit e.D0ToPiK = false ∨ rapidityRejects h cfg c))
      ∧ (TaskD0MC.observations e h m cfg particlesMC cm = [] ↔
        (cm.hfflag.testBit e.D0ToPiK = false ∨ rapidityRejects h cfg cm.toCandidate)) := by
  constructor
  · unfold TaskD0.observations
    by_cases hflag : passesDecayFlag e c
    · have hbit : ¬ c.hfflag.testBit e.D0ToPiK = false := by
        unfold passesDecayFlag at hflag; simp [hflag]
      by_cases hy : rapidityRejects h cfg c
      · simp [TaskD0.processCandidate_rapidity e h cfg [] c hy, hy]
      · rw [TaskD0.processCandidate_survivor e h cfg [] c hflag hy]
        simp [unconditionalFills, hy, hbit]
    · have hbit : c.hfflag.testBit e.D0ToPiK = false := by
        unfold passesDecayFlag at hflag; simpa using hflag
      simp [TaskD0.processCandidate_no_flag e h cfg [] c hflag, hbit]
  · unfold TaskD0MC.observations
    by_cases hflag : passesDecayFlag e cm.toCandidate
    · have hbit : ¬ cm.hfflag.testBit e.D0ToPiK = false := by
        unfold passesDecayFlag at hflag; simp [hflag]
      by_cases hy : rapidityRejects h cfg cm.toCandidate
      · simp [TaskD0MC.recLoop_rapidity e h m cfg particlesMC [] cm hy, hy]
      · by_cases hm : TaskD0MC.isMatched e cm
        · rw [TaskD0MC.recLoop_matched e h m cfg particlesMC [] cm ⟨hflag, hy⟩ hm]
          simp [signalPtFills, hy, hbit]
        · rw [TaskD0MC.recLoop_unmatched e h m cfg particlesMC [] cm ⟨hflag, hy⟩ hm]
          simp [hy, hbit]
    · have hbit : cm.hfflag.testBit e.D0ToPiK = false := by
        unfold passesDecayFlag at hflag; simpa using hflag
      simp [TaskD0MC.recLoop_no_flag e h m cfg particlesMC [] cm hflag, hbit]

/-- Witness for claim C3: with D0ToPiK = 1 a candidate whose hfflag is 1 (bit 0 only) emits
nothing in either task, although (hfflag & 1) << 1 is not zero. -/
theorem decay_flag_step_witness :
    TaskD0.observations ⟨1, 1, 2⟩ sampleHelpers sampleConfig sampleCandidate = []
      ∧ TaskD0MC.observations ⟨1, 1, 2⟩ sampleHelpers sampleMcHelpers sampleConfig
          sampleParticles sampleMatched = []
      ∧ (sampleCandidate.hfflag &&& 1) <<< 1 ≠ 0 := by
  have key := decay_flag_step ⟨1, 1, 2⟩ sampleHelpers sampleMcHelpers sampleConfig
    sampleParticles sampleCandidate sampleMatched
  exact ⟨key.1.mpr (Or.inl (by decide)), key.2.mpr (Or.inl (by decide)), by decide⟩

/-- Counterexample to claim C4 as stated: a surviving candidate with the non-negative scores
isSelD0 = 2 and isSelD0bar = 1 fills "hselectionstatus" with 4, outside 0..3. -/
theorem selection_status_counterexample :
    survives sampleEnums sampleHelpers sampleConfig sampleHighScores
      ∧ 0 ≤ sampleHighScores.isSelD0 ∧ 0 ≤ sampleHighScores.isSelD0bar
      ∧ (TaskD0.observations sampleEnums sampleHelpers sampleConfig sampleHighScores).filter
          (fun o => o.name = "hselectionstatus") = [⟨"hselectionstatus", [4, 5]⟩]
      ∧ (4 : ℚ) ∉ [(0 : ℚ), 1, 2, 3] := by
  have hs : survives sampleEnums sampleHelpers sampleConfig sampleHighScores :=
    ⟨by decide, by norm_num [rapidityRejects, sampleHelpers, sampleConfig, lt_abs]⟩
  refine ⟨hs, by decide, by decide, ?_, by norm_num⟩
  unfold TaskD0.observations
  rw [TaskD0.processCandidate_survivor _ _ _ [] _ hs.1 hs.2]
  have hd : sampleHighScores.isSelD0 ≥ sampleConfig.d_selectionFlagD0 := by decide
  have hb : sampleHighScores.isSelD0bar ≥ sampleConfig.d_selectionFlagD0bar := by decide
  have hpt : sampleHighScores.pt = 5 := rfl
  simp [massFills, unconditionalFills, List.filter, hd, hb, hpt,
    sampleHighScores_selectionStatus]

/-- Claim C4, amended: for every candidate that emits observations in TaskD0::process there is
exactly one "hselectionstatus" fill, made with the value of the int expression of line 100
against pt; for non-negative scores whose sum isSelD0 + 2*isSelD0bar fits a 32-bit int (no
overflow) that value equals isSelD0 + 2*isSelD0bar, and it lies in 0..3 exactly when
isSelD0 + 2*isSelD0bar <= 3, in particular whenever both scores are 0 or 1. -/
theorem selection_status_value (e : Enums) (h : Helpers) (cfg : Config) (c : Candidate)
    (hs : survives e h cfg c) :
    (TaskD0.observations e h cfg c).filter (fun o => o.name = "hselectionstatus") =
        [⟨"hselectionstatus", [((TaskD0.selectionStatus c : Int) : ℚ), c.pt]⟩]
      ∧ (0 ≤ c.isSelD0 → 0 ≤ c.isSelD0bar → c.isSelD0 + 2 * c.isSelD0bar < 2147483648 →
          TaskD0.selectionStatus c = c.isSelD0 + 2 * c.isSelD0bar
            ∧ (((TaskD0.selectionStatus c : Int) : ℚ) ∈ [(0 : ℚ), 1, 2, 3] ↔
              c.isSelD0 + 2 * c.isSelD0bar ≤ 3))
      ∧ ((c.isSelD0 = 0 ∨ c.isSelD0 = 1) → (c.isSelD0bar = 0 ∨ c.isSelD0bar = 1) →
          TaskD0.selectionStatus c = c.isSelD0 + 2 * c.isSelD0bar
            ∧ ((TaskD0.selectionStatus c : Int) : ℚ) ∈ [(0 : ℚ), 1, 2, 3]) := by
  have range : ∀ v : Int, 0 ≤ v → (((v : Int) : ℚ) ∈ [(0 : ℚ), 1, 2, 3] ↔ v ≤ 3) := by
    intro v hv
    have cast0 : ((0 : Int) : ℚ) = 0 := by norm_num
    have cast1 : ((1 : Int) : ℚ) = 1 := by norm_num
    have cast2 : ((2 : Int) : ℚ) = 2 := by norm_num
    have cast3 : ((3 : Int) : ℚ) = 3 := by norm_num
    constructor
    · intro hmem
      simp only [List.mem_cons, List.mem_singleton, List.not_mem_nil, or_false] at hmem
      rcases hmem with hv1 | hv1 | hv1 | hv1
      · rw [← cast0, Int.cast_inj] at hv1; omega
      · rw [← cast1, Int.cast_inj] at hv1; omega
      · rw [← cast2, Int.cast_inj] at hv1; omega
      · rw [← cast3, Int.cast_inj] at hv1; omega
    · intro hle
      have hcases : v = 0 ∨ v = 1 ∨ v = 2 ∨ v = 3 := by omega
      rcases hcases with hv1 | hv1 | hv1 | hv1 <;> rw [hv1] <;> simp
  refine ⟨?_, ?_, ?_⟩
  · unfold TaskD0.observations
    rw [TaskD0.processCandidate_survivor e h cfg [] c hs.1 hs.2]
    by_cases hd : c.isSelD0 ≥ cfg.d_selectionFlagD0 <;>
      by_cases hb : c.isSelD0bar ≥ cfg.d_selectionFlagD0bar <;>
      simp [hd, hb, List.filter, massFills, unconditionalFills]
  · intro h0 h1 hlt
    have heq := TaskD0.selectionStatus_eq c h0 h1 hlt
    refine ⟨heq, ?_⟩
    rw [heq]
    exact range _ (by omega)
  · intro h0 h1
    have hn0 : 0 ≤ c.isSelD0 := by omega
    have hn1 : 0 ≤ c.isSelD0bar := by omega
    have heq := TaskD0.selectionStatus_eq c hn0 hn1 (by omega)
    refine ⟨heq, ?_⟩
    rw [heq]
    exact (range _ (by omega)).mpr (by omega)

/-- Witness for claim C4 (amended): the sample candidate (scores 1 and 0) fills
"hselectionstatus" once, with 1 = 1 + 2*0. -/
theorem selection_status_value_witness :
    (TaskD0.observations sampleEnums sampleHelpers sampleConfig sampleCandidate).filter
        (fun o => o.name = "hselectionstatus") = [⟨"hselectionstatus", [1, 5]⟩]
      ∧ TaskD0.selectionStatus sampleCandidate =
          sampleCandidate.isSelD0 + 2 * sampleCandidate.isSelD0bar := by
  have key := selection_status_value sampleEnums sampleHelpers sampleConfig sampleCandidate
    ⟨by decide, by norm_num [rapidityRejects, sampleHelpers, sampleConfig, lt_abs]⟩
  have hpt : sampleCandidate.pt = 5 := rfl
  refine ⟨key.1.trans ?_, (key.2.1 (by decide) (by decide) (by decide)).1⟩
  simp [sampleCandidate_selectionStatus, hpt]

/-- Counterexample to claim C5 as stated: the sample candidate with both scores 0 survives the
decay-flag and rapidity steps and is below both thresholds, yet the base task (filter, then
process) makes no fill at all for it, so not the unconditional set. -/
theorem low_scores_counterexample :
    survives sampleEnums sampleHelpers sampleConfig sampleLowScores
      ∧ sampleLowScores.isSelD0 < sampleConfig.d_selectionFlagD0
      ∧ sampleLowScores.isSelD0bar < sampleConfig.d_selectionFlagD0bar
      ∧ TaskD0.run sampleEnums sampleHelpers sampleConfig [] [sampleLowScores] = []
      ∧ TaskD0.run sampleEnums sampleHelpers sampleConfig [] [sampleLowScores] ≠
          unconditionalFills sampleHelpers sampleLowScores := by
  have hs : survives sampleEnums sampleHelpers sampleConfig sampleLowScores :=
    ⟨by decide, by norm_num [rapidityRejects, sampleHelpers, sampleConfig, lt_abs]⟩
  have hrun : TaskD0.run sampleEnums sampleHelpers sampleConfig [] [sampleLowScores] = [] := by
    have hf : TaskD0.filterSelectCandidates sampleConfig sampleLowScores = false := by decide
    simp [TaskD0.run, TaskD0.process, List.filter, hf]
  refine ⟨hs, by decide, by decide, hrun, ?_⟩
  rw [hrun]
  simp [unconditionalFills]

/-- Claim C5, amended: a candidate with the decay-flag bit set, passing the rapidity step, and
with isSelD0 and isSelD0bar both below their thresholds is removed by filterSelectCandidates,
so the base task contributes no fill for it, neither "hmass" nor the unconditional set; it is
TaskD0::process alone, when handed such a candidate, that makes no "hmass" fill and the 17
unconditional fills. -/
theorem low_scores_contribution (e : Enums) (h : Helpers) (cfg : Config) (c : Candidate)
    (hs : survives e h cfg c) (hd : c.isSelD0 < cfg.d_selectionFlagD0)
    (hb : c.isSelD0bar < cfg.d_selectionFlagD0bar) :
    TaskD0.filterSelectCandidates cfg c = false
      ∧ (∀ (registry : HistogramRegistry) (before after : List Candidate),
          TaskD0.run e h cfg registry (before ++ c :: after) =
            TaskD0.run e h cfg registry (before ++ after))
      ∧ TaskD0.run e h cfg [] [c] = []
      ∧ TaskD0.observations e h cfg c = unconditionalFills h c
      ∧ (TaskD0.observations e h cfg c).filter (fun o => o.name = "hmass") = [] := by
  have hf : TaskD0.filterSelectCandidates cfg c = false := by
    simp [TaskD0.filterSelectCandidates, hd, hb]
  have hobs : TaskD0.observations e h cfg c = unconditionalFills h c := by
    unfold TaskD0.observations
    rw [TaskD0.processCandidate_survivor e h cfg [] c hs.1 hs.2]
    simp [massFills, not_le.mpr hd, not_le.mpr hb]
  refine ⟨hf, ?_, ?_, hobs, ?_⟩
  · intro registry before after
    simp [TaskD0.run, List.filter_append, List.filter_cons, hf]
  · simp [TaskD0.run, TaskD0.process, List.filter, hf]
  · rw [hobs]
    simp [unconditionalFills, List.filter]

/-- Witness for claim C5 (amended): the sample candidate with both scores 0 is dropped by the
filter, and process alone would make the 17 unconditional fills for it. -/
theorem low_scores_contribution_witness :
    TaskD0.filterSelectCandidates sampleConfig sampleLowScores = false
      ∧ TaskD0.run sampleEnums sampleHelpers sampleConfig [] [sampleLowScores] = []
      ∧ (TaskD0.observations sampleEnums sampleHelpers sampleConfig sampleLowScores).length
          = 17 := by
  have key := low_scores_contribution sampleEnums sampleHelpers sampleConfig sampleLowScores
    ⟨by decide, by norm_num [rapidityRejects, sampleHelpers, sampleConfig, lt_abs]⟩
    (by decide) (by decide)
  refine ⟨key.1, key.2.2.1, ?_⟩
  rw [key.2.2.2.1]
  rfl

/-- Claim C6: for every candidate passing the decay-flag and rapidity steps of TaskD0::process,
whatever its scores, the fills are the mass fills followed by exactly the 17 unconditional
fills in source order (hptcand, hptprong0, hptprong1 one-valued, the others against pt,
hImpParErr twice); the selection status filled is the int expression of line 100, which is
isSelD0 + 2*isSelD0bar for non-negative scores whose sum fits a 32-bit int. -/
theorem unconditional_observations (e : Enums) (h : Helpers) (cfg : Config) (c : Candidate)
    (hs : survives e h cfg c) :
    TaskD0.observations e h cfg c = massFills h cfg c ++ unconditionalFills h c
      ∧ (TaskD0.observations e h cfg c).drop (massFills h cfg c).length =
        [⟨"hptcand", [c.pt]⟩,
         ⟨"hptprong0", [c.ptProng0]⟩,
         ⟨"hptprong1", [c.ptProng1]⟩,
         ⟨"hdeclength", [c.decayLength, c.pt]⟩,
         ⟨"hdeclengthxy", [c.decayLengthXY, c.pt]⟩,
         ⟨"hd0Prong0", [c.impactParameter0, c.pt]⟩,
         ⟨"hd0Prong1", [c.impactParameter1, c.pt]⟩,
         ⟨"hd0d0", [c.impactParameterProduct, c.pt]⟩,
         ⟨"hCTS", [h.CosThetaStarD0 c, c.pt]⟩,
         ⟨"hCt", [h.CtD0 c, c.pt]⟩,
         ⟨"hCPA", [c.cpa, c.pt]⟩,
         ⟨"hEta", [c.eta, c.pt]⟩,
         ⟨"hselectionstatus", [((TaskD0.selectionStatus c : Int) : ℚ), c.pt]⟩,
         ⟨"hImpParErr", [c.errorImpactParameter0, c.pt]⟩,
         ⟨"hImpParErr", [c.errorImpactParameter1, c.pt]⟩,
         ⟨"hDecLenErr", [c.errorDecayLength, c.pt]⟩,
         ⟨"hDecLenXYErr", [c.errorDecayLengthXY, c.pt]⟩]
      ∧ (∀ o ∈ massFills h cfg c, o.name = "hmass")
      ∧ (TaskD0.observations e h cfg c).length = (massFills h cfg c).length + 17
      ∧ (0 ≤ c.isSelD0 → 0 ≤ c.isSelD0bar → c.isSelD0 + 2 * c.isSelD0bar < 2147483648 →
          TaskD0.selectionStatus c = c.isSelD0 + 2 * c.isSelD0bar) := by
  have hobs : TaskD0.observations e h cfg c = massFills h cfg c ++ unconditionalFills h c := by
    unfold TaskD0.observations
    rw [TaskD0.processCandidate_survivor e h cfg [] c hs.1 hs.2]
    simp
  refine ⟨hobs, ?_, ?_, ?_, TaskD0.selectionStatus_eq c⟩
  · rw [hobs, List.drop_left]
    rfl
  · intro o ho
    unfold massFills at ho
    by_cases hd : c.isSelD0 ≥ cfg.d_selectionFlagD0 <;>
      by_cases hb : c.isSelD0bar ≥ cfg.d_selectionFlagD0bar <;>
      simp [hd, hb] at ho
    · rcases ho with ho | ho <;> rw [ho]
    · rw [ho]
    · rw [ho]
  · rw [hobs, List.length_append]
    rfl

/-- Witness for claim C6: the sample candidate (flag bit set, rapidity 0.3, cutoff 0.5,
isSelD0 = 1, isSelD0bar = 0, thresholds 1) yields exactly 18 fills: the D0 mass, then the 17
unconditional ones, with selection status 1. -/
theorem unconditional_observations_witness :
    TaskD0.observations sampleEnums sampleHelpers sampleConfig sampleCandidate =
      [⟨"hmass", [93 / 50, 5]⟩,
       ⟨"hptcand", [5]⟩, ⟨"hptprong0", [3]⟩, ⟨"hptprong1", [2]⟩,
       ⟨"hdeclength", [1 / 10, 5]⟩, ⟨"hdeclengthxy", [1 / 20, 5]⟩,
       ⟨"hd0Prong0", [1 / 100, 5]⟩, ⟨"hd0Prong1", [-1 / 200, 5]⟩,
       ⟨"hd0d0", [-1 / 20000, 5]⟩, ⟨"hCTS", [1 / 4, 5]⟩, ⟨"hCt", [1 / 50, 5]⟩,
       ⟨"hCPA", [9 / 10, 5]⟩, ⟨"hEta", [1 / 2, 5]⟩, ⟨"hselectionstatus", [1, 5]⟩,
       ⟨"hImpParErr", [1 / 1000, 5]⟩, ⟨"hImpParErr", [1 / 500, 5]⟩,
       ⟨"hDecLenErr", [1 / 40, 5]⟩, ⟨"hDecLenXYErr", [1 / 80, 5]⟩]
      ∧ (TaskD0.observations sampleEnums sampleHelpers sampleConfig sampleCandidate).length
          = 18 := by
  have key := unconditional_observations sampleEnums sampleHelpers sampleConfig sampleCandidate
    ⟨by decide, by norm_num [rapidityRejects, sampleHelpers, sampleConfig, lt_abs]⟩
  have hlist : massFills sampleHelpers sampleConfig sampleCandidate ++
      unconditionalFills sampleHelpers sampleCandidate =
      [⟨"hmass", [93 / 50, 5]⟩,
       ⟨"hptcand", [5]⟩, ⟨"hptprong0", [3]⟩, ⟨"hptprong1", [2]⟩,
       ⟨"hdeclength", [1 / 10, 5]⟩, ⟨"hdeclengthxy", [1 / 20, 5]⟩,
       ⟨"hd0Prong0", [1 / 100, 5]⟩, ⟨"hd0Prong1", [-1 / 200, 5]⟩,
       ⟨"hd0d0", [-1 / 20000, 5]⟩, ⟨"hCTS", [1 / 4, 5]⟩, ⟨"hCt", [1 / 50, 5]⟩,
       ⟨"hCPA", [9 / 10, 5]⟩, ⟨"hEta", [1 / 2, 5]⟩, ⟨"hselectionstatus", [1, 5]⟩,
       ⟨"hImpParErr", [1 / 1000, 5]⟩, ⟨"hImpParErr", [1 / 500, 5]⟩,
       ⟨"hDecLenErr", [1 / 40, 5]⟩, ⟨"hDecLenXYErr", [1 / 80, 5]⟩] := by
    simp only [unconditionalFills, sampleCandidate_selectionStatus]
    simp [massFills, sampleCandidate, sampleConfig, sampleHelpers]
  refine ⟨key.1.trans hlist, ?_⟩
  rw [key.1, hlist]
  rfl

/-- Claim C7: in the reconstructed loop of TaskD0MC::process a surviving candidate emits at
least one fill, and all of its fills go to one population: signal names only when
|flagMCMatchRec| == 1 << D0ToPiK, background names only otherwise. The population depends
only on that test: the sign of the flag does not change the fills, and two surviving candidates
that agree on the test land in the same population. -/
theorem population_exclusive (e : Enums) (h : Helpers) (m : McHelpers) (cfg : Config)
    (particlesMC : List McParticle) (c : CandidateMC) (hs : survives e h cfg c.toCandidate) :
    TaskD0MC.observations e h m cfg particlesMC c ≠ []
      ∧ (TaskD0MC.isMatched e c →
          ∀ o ∈ TaskD0MC.observations e h m cfg particlesMC c,
            isSignalName o.name = true ∧ isBackgroundName o.name = false)
      ∧ (¬ TaskD0MC.isMatched e c →
          ∀ o ∈ TaskD0MC.observations e h m cfg particlesMC c,
            isBackgroundName o.name = true ∧ isSignalName o.name = false)
      ∧ TaskD0MC.observations e h m cfg particlesMC
            { c with flagMCMatchRec := -c.flagMCMatchRec } =
          TaskD0MC.observations e h m cfg particlesMC c
      ∧ (∀ d : CandidateMC, survives e h cfg d.toCandidate →
          (TaskD0MC.isMatched e c ↔ TaskD0MC.isMatched e d) →
          ((∀ o ∈ TaskD0MC.observations e h m cfg particlesMC c, isSignalName o.name = true) ↔
            (∀ o ∈ TaskD0MC.observations e h m cfg particlesMC d, isSignalName o.name = true))
          ∧ ((∀ o ∈ TaskD0MC.observations e h m cfg particlesMC c,
                isBackgroundName o.name = true) ↔
            (∀ o ∈ TaskD0MC.observations e h m cfg particlesMC d,
                isBackgroundName o.name = true))) := by
  have sig : ∀ d : CandidateMC, survives e h cfg d.toCandidate → TaskD0MC.isMatched e d →
      ∀ o ∈ TaskD0MC.observations e h m cfg particlesMC d,
        isSignalName o.name = true ∧ isBackgroundName o.name = false := by
    intro d hd hm
    unfold TaskD0MC.observations
    rw [TaskD0MC.recLoop_matched e h m cfg particlesMC [] d hd hm, names_all_iff]
    by_cases hor : d.originMCRec = e.Prompt <;>
      by_cases h0 : d.isSelD0 ≥ cfg.d_selectionFlagD0 <;>
      by_cases h1 : d.isSelD0bar ≥ cfg.d_selectionFlagD0bar <;>
      simp only [signalPtFills, kinematicFills, gatedFills, hypothesisFills, hor, h0, h1,
        if_true, if_false, List.nil_append, List.append_nil, List.map_append, List.map_cons,
        List.map_nil, List.cons_append, not_false_eq_true, not_true_eq_false] <;>
      decide
  have bg : ∀ d : CandidateMC, survives e h cfg d.toCandidate → ¬ TaskD0MC.isMatched e d →
      ∀ o ∈ TaskD0MC.observations e h m cfg particlesMC d,
        isBackgroundName o.name = true ∧ isSignalName o.name = false := by
    intro d hd hm
    unfold TaskD0MC.observations
    rw [TaskD0MC.recLoop_unmatched e h m cfg particlesMC [] d hd hm, names_all_iff]
    by_cases h0 : d.isSelD0 ≥ cfg.d_selectionFlagD0 <;>
      by_cases h1 : d.isSelD0bar ≥ cfg.d_selectionFlagD0bar <;>
      simp only [kinematicFills, gatedFills, hypothesisFills, h0, h1,
        if_true, if_false, List.nil_append, List.append_nil, List.map_append, List.map_cons,
        List.map_nil, List.cons_append, not_false_eq_true, not_true_eq_false] <;>
      decide
  have nonempty : ∀ d : CandidateMC, survives e h cfg d.toCandidate →
      ∃ o, o ∈ TaskD0MC.observations e h m cfg particlesMC d := by
    intro d hd
    unfold TaskD0MC.observations
    by_cases hm : TaskD0MC.isMatched e d
    · rw [TaskD0MC.recLoop_matched e h m cfg particlesMC [] d hd hm]
      exact ⟨⟨"hPtGenSig", [motherPt m particlesMC d]⟩, by simp [signalPtFills]⟩
    · rw [TaskD0MC.recLoop_unmatched e h m cfg particlesMC [] d hd hm]
      exact ⟨⟨"hPtRecBg", [d.pt]⟩, by simp⟩
  refine ⟨?_, sig c hs, bg c hs, ?_, ?_⟩
  · obtain ⟨o, ho⟩ := nonempty c hs
    exact List.ne_nil_of_mem ho
  · have hs2 : survives e h cfg
        ({ c with flagMCMatchRec := -c.flagMCMatchRec } : CandidateMC).toCandidate := hs
    have habs : TaskD0MC.isMatched e { c with flagMCMatchRec := -c.flagMCMatchRec } ↔
        TaskD0MC.isMatched e c := by
      unfold TaskD0MC.isMatched
      simp [abs_neg]
    unfold TaskD0MC.observations
    by_cases hm : TaskD0MC.isMatched e c
    · rw [TaskD0MC.recLoop_matched e h m cfg particlesMC [] _ hs2 (habs.mpr hm),
        TaskD0MC.recLoop_matched e h m cfg particlesMC [] c hs hm]
      rfl
    · rw [TaskD0MC.recLoop_unmatched e h m cfg particlesMC [] _ hs2 (fun hx => hm (habs.mp hx)),
        TaskD0MC.recLoop_unmatched e h m cfg particlesMC [] c hs hm]
      rfl
  · intro d hd hagree
    obtain ⟨oc, hoc⟩ := nonempty c hs
    obtain ⟨od, hod⟩ := nonempty d hd
    by_cases hm : TaskD0MC.isMatched e c
    · have hmd := hagree.mp hm
      refine ⟨⟨fun _ o ho => (sig d hd hmd o ho).1, fun _ o ho => (sig c hs hm o ho).1⟩, ?_, ?_⟩
      · intro hall
        have h1 := hall oc hoc
        rw [(sig c hs hm oc hoc).2] at h1
        exact absurd h1 (by decide)
      · intro hall
        have h1 := hall od hod
        rw [(sig d hd hmd od hod).2] at h1
        exact absurd h1 (by decide)
    · have hmd : ¬ TaskD0MC.isMatched e d := fun hx => hm (hagree.mpr hx)
      refine ⟨⟨?_, ?_⟩, fun _ o ho => (bg d hd hmd o ho).1, fun _ o ho => (bg c hs hm o ho).1⟩
      · intro hall
        have h1 := hall oc hoc
        rw [(bg c hs hm oc hoc).2] at h1
        exact absurd h1 (by decide)
      · intro hall
        have h1 := hall od hod
        rw [(bg d hd hmd od hod).2] at h1
        exact absurd h1 (by decide)

/-- Witness for claim C7: the sample candidate with truth-match flag -1 (D0ToPiK = 0) survives
and fills signal distributions only. -/
theorem population_exclusive_witness :
    survives sampleEnums sampleHelpers sampleConfig sampleMatched.toCandidate
      ∧ TaskD0MC.isMatched sampleEnums sampleMatched
      ∧ TaskD0MC.observations sampleEnums sampleHelpers sampleMcHelpers sampleConfig
          sampleParticles sampleMatched ≠ []
      ∧ ∀ o ∈ TaskD0MC.observations sampleEnums sampleHelpers sampleMcHelpers sampleConfig
          sampleParticles sampleMatched,
          isSignalName o.name = true ∧ isBackgroundName o.name = false := by
  have hs : survives sampleEnums sampleHelpers sampleConfig sampleMatched.toCandidate :=
    ⟨by decide, by norm_num [rapidityRejects, sampleHelpers, sampleConfig, lt_abs]⟩
  have hm : TaskD0MC.isMatched sampleEnums sampleMatched := by decide
  have key := population_exclusive sampleEnums sampleHelpers sampleMcHelpers sampleConfig
    sampleParticles sampleMatched hs
  exact ⟨hs, hm, key.1, key.2.1 hm⟩

/-- Claim C8: for a surviving candidate with |flagMCMatchRec| == 1 << D0ToPiK the reconstructed
loop fills hPtGenSig exactly once with the generated mother pT, hPtRecSig exactly once with the
reconstructed pT, and exactly one of hPtRecSigPrompt / hPtRecSigNonPrompt exactly once with
the reconstructed pT: the former when originMCRec is Prompt, the latter when it is
NonPrompt. -/
theorem signal_pt_fills (e : Enums) (h : Helpers) (m : McHelpers) (cfg : Config)
    (particlesMC : List McParticle) (c : CandidateMC) (hs : survives e h cfg c.toCandidate)
    (hm : TaskD0MC.isMatched e c) (hdistinct : e.Prompt ≠ e.NonPrompt) :
    (TaskD0MC.observations e h m cfg particlesMC c).filter (fun o => o.name = "hPtGenSig") =
        [⟨"hPtGenSig", [(m.iteratorAt particlesMC
          (m.getMother particlesMC (m.trackMcParticle c.index0))).pt]⟩]
      ∧ (TaskD0MC.observations e h m cfg particlesMC c).filter
          (fun o => o.name = "hPtRecSig") = [⟨"hPtRecSig", [c.pt]⟩]
      ∧ (c.originMCRec = e.Prompt →
          (TaskD0MC.observations e h m cfg particlesMC c).filter
              (fun o => o.name = "hPtRecSigPrompt") = [⟨"hPtRecSigPrompt", [c.pt]⟩]
            ∧ (TaskD0MC.observations e h m cfg particlesMC c).filter
              (fun o => o.name = "hPtRecSigNonPrompt") = [])
      ∧ (c.originMCRec = e.NonPrompt →
          (TaskD0MC.observations e h m cfg particlesMC c).filter
              (fun o => o.name = "hPtRecSigPrompt") = []
            ∧ (TaskD0MC.observations e h m cfg particlesMC c).filter
              (fun o => o.name = "hPtRecSigNonPrompt") = [⟨"hPtRecSigNonPrompt", [c.pt]⟩])
      ∧ ((TaskD0MC.observations e h m cfg particlesMC c).filter
              (fun o => o.name = "hPtRecSigPrompt")).length
          + ((TaskD0MC.observations e h m cfg particlesMC c).filter
              (fun o => o.name = "hPtRecSigNonPrompt")).length = 1 := by
  unfold TaskD0MC.observations
  rw [TaskD0MC.recLoop_matched e h m cfg particlesMC [] c hs hm]
  by_cases hor : c.originMCRec = e.Prompt <;>
    by_cases h0 : c.isSelD0 ≥ cfg.d_selectionFlagD0 <;>
    by_cases h1 : c.isSelD0bar ≥ cfg.d_selectionFlagD0bar <;>
    simp [signalPtFills, kinematicFills, gatedFills, hypothesisFills, motherPt, List.filter,
      hor, h0, h1, hdistinct]

/-- Witness for claim C8: the sample matched candidate (origin Prompt) fills hPtGenSig with the
mother pT 6, hPtRecSig and hPtRecSigPrompt with its pT 5, and not hPtRecSigNonPrompt. -/
theorem signal_pt_fills_witness :
    (TaskD0MC.observations sampleEnums sampleHelpers sampleMcHelpers sampleConfig
        sampleParticles sampleMatched).filter (fun o => o.name = "hPtGenSig") =
        [⟨"hPtGenSig", [6]⟩]
      ∧ (TaskD0MC.observations sampleEnums sampleHelpers sampleMcHelpers sampleConfig
        sampleParticles sampleMatched).filter (fun o => o.name = "hPtRecSigPrompt") =
        [⟨"hPtRecSigPrompt", [5]⟩]
      ∧ (TaskD0MC.observations sampleEnums sampleHelpers sampleMcHelpers sampleConfig
        sampleParticles sampleMatched).filter (fun o => o.name = "hPtRecSigNonPrompt") =
        [] := by
  have key := signal_pt_fills sampleEnums sampleHelpers sampleMcHelpers sampleConfig
    sampleParticles sampleMatched
    ⟨by decide, by norm_num [rapidityRejects, sampleHelpers, sampleConfig, lt_abs]⟩
    (by decide) (by decide)
  have hp := key.2.2.1 (by decide)
  refine ⟨key.1.trans ?_, hp.1.trans ?_, hp.2⟩
  · simp [sampleMcHelpers, sampleParticles]
  · simp [sampleMatched, sampleCandidate]

/-- Counterexample to claim C9 as stated: for the sample candidate columns, the fills of the
unmatched branch differ from the fills of the matched branch with hPtGenSig removed and
"Sig" renamed to "Bg": the renamed matched fills contain "hPtRecBgPrompt", which the unmatched
branch never fills. -/
theorem background_mirror_counterexample :
    sampleUnmatched.toCandidate = sampleMatched.toCandidate
      ∧ survives sampleEnums sampleHelpers sampleConfig sampleMatched.toCandidate
      ∧ TaskD0MC.isMatched sampleEnums sampleMatched
      ∧ ¬ TaskD0MC.isMatched sampleEnums sampleUnmatched
      ∧ (⟨"hPtRecBgPrompt", [5]⟩ : Fill) ∈
          ((TaskD0MC.observations sampleEnums sampleHelpers sampleMcHelpers sampleConfig
            sampleParticles sampleMatched).filter
              (fun o => decide (o.name ≠ "hPtGenSig"))).map Fill.toBackground
      ∧ (⟨"hPtRecBgPrompt", [5]⟩ : Fill) ∉
          TaskD0MC.observations sampleEnums sampleHelpers sampleMcHelpers sampleConfig
            sampleParticles sampleUnmatched
      ∧ TaskD0MC.observations sampleEnums sampleHelpers sampleMcHelpers sampleConfig
            sampleParticles sampleUnmatched ≠
          ((TaskD0MC.observations sampleEnums sampleHelpers sampleMcHelpers sampleConfig
            sampleParticles sampleMatched).filter
              (fun o => decide (o.name ≠ "hPtGenSig"))).map Fill.toBackground := by
  have hs : survives sampleEnums sampleHelpers sampleConfig sampleMatched.toCandidate :=
    ⟨by decide, by norm_num [rapidityRejects, sampleHelpers, sampleConfig, lt_abs]⟩
  have hm : TaskD0MC.isMatched sampleEnums sampleMatched := by decide
  have hu : ¬ TaskD0MC.isMatched sampleEnums sampleUnmatched := by decide
  have hin : (⟨"hPtRecBgPrompt", [5]⟩ : Fill) ∈
      ((TaskD0MC.observations sampleEnums sampleHelpers sampleMcHelpers sampleConfig
        sampleParticles sampleMatched).filter
          (fun o => decide (o.name ≠ "hPtGenSig"))).map Fill.toBackground := by
    unfold TaskD0MC.observations
    rw [TaskD0MC.recLoop_matched _ _ _ _ _ [] _ hs hm]
    refine List.mem_map.mpr ⟨⟨"hPtRecSigPrompt", [5]⟩, ?_, by decide⟩
    refine List.mem_filter.mpr ⟨?_, by decide⟩
    simp [signalPtFills, sampleMatched, sampleEnums, sampleCandidate]
  have hout : (⟨"hPtRecBgPrompt", [5]⟩ : Fill) ∉
      TaskD0MC.observations sampleEnums sampleHelpers sampleMcHelpers sampleConfig
        sampleParticles sampleUnmatched := by
    unfold TaskD0MC.observations
    rw [TaskD0MC.recLoop_unmatched _ _ _ _ _ [] sampleUnmatched hs hu]
    simp [kinematicFills, gatedFills, hypothesisFills, sampleUnmatched, sampleCandidate,
      sampleConfig]
  refine ⟨rfl, hs, hm, hu, hin, hout, ?_⟩
  intro heq
  rw [heq] at hout
  exact hout hin

/-- Claim C9, amended: for two surviving candidates with the same candidate columns, one
matched and one not, the fills of the unmatched branch are the fills of the matched branch
with every "Sig" renamed to "Bg" (same values, same secondary values, same order, same
hypothesis gating), once the fills of hPtGenSig and of the origin-specific hPtRecSigPrompt /
hPtRecSigNonPrompt, which have no background counterpart, are left out. -/
theorem background_mirrors_signal (e : Enums) (h : Helpers) (m : McHelpers) (cfg : Config)
    (particlesMC : List McParticle) (cs cb : CandidateMC)
    (hsame : cb.toCandidate = cs.toCandidate) (hs : survives e h cfg cs.toCandidate)
    (hm : TaskD0MC.isMatched e cs) (hu : ¬ TaskD0MC.isMatched e cb) :
    TaskD0MC.observations e h m cfg particlesMC cb =
      ((TaskD0MC.observations e h m cfg particlesMC cs).filter
        (fun o => decide (o.name ≠ "hPtGenSig" ∧ o.name ≠ "hPtRecSigPrompt"
          ∧ o.name ≠ "hPtRecSigNonPrompt"))).map Fill.toBackground := by
  have hsb : survives e h cfg cb.toCandidate := by rw [hsame]; exact hs
  unfold TaskD0MC.observations
  rw [TaskD0MC.recLoop_matched e h m cfg particlesMC [] cs hs hm,
    TaskD0MC.recLoop_unmatched e h m cfg particlesMC [] cb hsb hu]
  by_cases hor : cs.originMCRec = e.Prompt <;>
    by_cases h0 : cs.isSelD0 ≥ cfg.d_selectionFlagD0 <;>
    by_cases h1 : cs.isSelD0bar ≥ cfg.d_selectionFlagD0bar <;>
    simp [signalPtFills, kinematicFills, gatedFills, hypothesisFills, List.filter,
      Fill.toBackground, sigToBg, sigToBgChars, hsame, hor, h0, h1]

/-- Witness for claim C9 (amended): the sample unmatched candidate against the sample matched
one, which share their candidate columns. -/
theorem background_mirrors_signal_witness :
    TaskD0MC.observations sampleEnums sampleHelpers sampleMcHelpers sampleConfig
        sampleParticles sampleUnmatched =
      ((TaskD0MC.observations sampleEnums sampleHelpers sampleMcHelpers sampleConfig
          sampleParticles sampleMatched).filter
        (fun o => decide (o.name ≠ "hPtGenSig" ∧ o.name ≠ "hPtRecSigPrompt"
          ∧ o.name ≠ "hPtRecSigNonPrompt"))).map Fill.toBackground :=
  background_mirrors_signal sampleEnums sampleHelpers sampleMcHelpers sampleConfig
    sampleParticles sampleMatched sampleUnmatched rfl
    ⟨by decide, by norm_num [rapidityRejects, sampleHelpers, sampleConfig, lt_abs]⟩
    (by decide) (by decide)

/-- Claim C10: in both branches of the reconstructed loop, after the common fills, the D0 set
is filled when isSelD0 meets its threshold (mass under the D0 hypothesis, pion distributions
from prong 0, kaon distributions from prong 1) and then the D0bar set when isSelD0bar meets
its threshold (mass under the D0bar hypothesis, pion from prong 1, kaon from prong 0). The
D0bar block is the D0 block on the candidate with its prongs exchanged and the two mass
hypotheses exchanged, and a candidate passing both hypotheses puts both prongs into each pion
and kaon distribution. -/
theorem hypothesis_blocks (e : Enums) (h : Helpers) (m : McHelpers) (cfg : Config)
    (particlesMC : List McParticle) (registry : HistogramRegistry) (c : CandidateMC) :
    TaskD0MC.signalD0 h registry c = registry ++
        [⟨"hmass2DRecSig", [h.InvMassD0 c.toCandidate, c.pt]⟩,
         ⟨"hpionpTRecSig", [c.ptProng0, c.pt]⟩,
         ⟨"hkaonpTRecSig", [c.ptProng1, c.pt]⟩,
         ⟨"hDCApionRecSig", [c.impactParameter0, c.pt]⟩,
         ⟨"hDCAkaonRecSig", [c.impactParameter1, c.pt]⟩,
         ⟨"hDCApionNormRecSig", [c.impactParameterNormalised0, c.pt]⟩,
         ⟨"hDCAkaonNormRecSig", [c.impactParameterNormalised1, c.pt]⟩]
      ∧ TaskD0MC.signalD0bar h registry c = registry ++
        [⟨"hmass2DRecSig", [h.InvMassD0bar c.toCandidate, c.pt]⟩,
         ⟨"hpionpTRecSig", [c.ptProng1, c.pt]⟩,
         ⟨"hkaonpTRecSig", [c.ptProng0, c.pt]⟩,
         ⟨"hDCApionRecSig", [c.impactParameter1, c.pt]⟩,
         ⟨"hDCAkaonRecSig", [c.impactParameter0, c.pt]⟩,
         ⟨"hDCApionNormRecSig", [c.impactParameterNormalised1, c.pt]⟩,
         ⟨"hDCAkaonNormRecSig", [c.impactParameterNormalised0, c.pt]⟩]
      ∧ TaskD0MC.backgroundD0 h registry c = registry ++
        [⟨"hmass2DRecBg", [h.InvMassD0 c.toCandidate, c.pt]⟩,
         ⟨"hpionpTRecBg", [c.ptProng0, c.pt]⟩,
         ⟨"hkaonpTRecBg", [c.ptProng1, c.pt]⟩,
         ⟨"hDCApionRecBg", [c.impactParameter0, c.pt]⟩,
         ⟨"hDCAkaonRecBg", [c.impactParameter1, c.pt]⟩,
         ⟨"hDCApionNormRecBg", [c.impactParameterNormalised0, c.pt]⟩,
         ⟨"hDCAkaonNormRecBg", [c.impactParameterNormalised1, c.pt]⟩]
      ∧ TaskD0MC.backgroundD0bar h registry c = registry ++
        [⟨"hmass2DRecBg", [h.InvMassD0bar c.toCandidate, c.pt]⟩,
         ⟨"hpionpTRecBg", [c.ptProng1, c.pt]⟩,
         ⟨"hkaonpTRecBg", [c.ptProng0, c.pt]⟩,
         ⟨"hDCApionRecBg", [c.impactParameter1, c.pt]⟩,
         ⟨"hDCAkaonRecBg", [c.impactParameter0, c.pt]⟩,
         ⟨"hDCApionNormRecBg", [c.impactParameterNormalised1, c.pt]⟩,
         ⟨"hDCAkaonNormRecBg", [c.impactParameterNormalised0, c.pt]⟩]
      ∧ TaskD0MC.signalD0bar h registry c = TaskD0MC.signalD0 h.swapMass registry c.swapProngs
      ∧ TaskD0MC.backgroundD0bar h registry c =
          TaskD0MC.backgroundD0 h.swapMass registry c.swapProngs
      ∧ TaskD0MC.signalBranch e h m cfg particlesMC registry c =
          (registry ++ (signalPtFills e m particlesMC c ++ kinematicFills "Sig" h c))
            ++ (if c.isSelD0 ≥ cfg.d_selectionFlagD0 then TaskD0MC.signalD0 h [] c else [])
            ++ (if c.isSelD0bar ≥ cfg.d_selectionFlagD0bar then TaskD0MC.signalD0bar h [] c
                else [])
      ∧ TaskD0MC.backgroundBranch h cfg registry c =
          (registry ++ ((⟨"hPtRecBg", [c.pt]⟩ : Fill) :: kinematicFills "Bg" h c))
            ++ (if c.isSelD0 ≥ cfg.d_selectionFlagD0 then TaskD0MC.backgroundD0 h [] c else [])
            ++ (if c.isSelD0bar ≥ cfg.d_selectionFlagD0bar then TaskD0MC.backgroundD0bar h [] c
                else [])
      ∧ (c.isSelD0 ≥ cfg.d_selectionFlagD0 → c.isSelD0bar ≥ cfg.d_selectionFlagD0bar →
          ∀ name : String, ∀ v0 v1 : ℚ,
            (name, v0, v1) ∈
              [("hpionpTRec", c.ptProng0, c.ptProng1),
               ("hkaonpTRec", c.ptProng1, c.ptProng0),
               ("hDCApionRec", c.impactParameter0, c.impactParameter1),
               ("hDCAkaonRec", c.impactParameter1, c.impactParameter0),
               ("hDCApionNormRec", c.impactParameterNormalised0, c.impactParameterNormalised1),
               ("hDCAkaonNormRec", c.impactParameterNormalised1,
                 c.impactParameterNormalised0)] →
            (TaskD0MC.signalBranch e h m cfg particlesMC [] c).filter
                (fun o => o.name = name ++ "Sig") =
              [⟨name ++ "Sig", [v0, c.pt]⟩, ⟨name ++ "Sig", [v1, c.pt]⟩]
            ∧ (TaskD0MC.backgroundBranch h cfg [] c).filter
                (fun o => o.name = name ++ "Bg") =
              [⟨name ++ "Bg", [v0, c.pt]⟩, ⟨name ++ "Bg", [v1, c.pt]⟩]) := by
  have hinv : c.swapProngs.toCandidate.swapProngs = c.toCandidate :=
    Candidate.swapProngs_swapProngs c.toCandidate
  refine ⟨?_, ?_, ?_, ?_, ?_, ?_, ?_, ?_, ?_⟩
  · rw [TaskD0MC.signalD0_eq]; rfl
  · rw [TaskD0MC.signalD0bar_eq]; rfl
  · rw [TaskD0MC.backgroundD0_eq]; rfl
  · rw [TaskD0MC.backgroundD0bar_eq]; rfl
  · rw [TaskD0MC.signalD0bar_eq, TaskD0MC.signalD0_eq]
    show _ = registry ++ hypothesisFills "Sig"
      (h.InvMassD0bar c.swapProngs.toCandidate.swapProngs) _ _ _ _ _ _ _
    rw [hinv]
    rfl
  · rw [TaskD0MC.backgroundD0bar_eq, TaskD0MC.backgroundD0_eq]
    show _ = registry ++ hypothesisFills "Bg"
      (h.InvMassD0bar c.swapProngs.toCandidate.swapProngs) _ _ _ _ _ _ _
    rw [hinv]
    rfl
  · rw [TaskD0MC.signalBranch_eq, TaskD0MC.signalD0_eq, TaskD0MC.signalD0bar_eq]
    simp [gatedFills]
  · rw [TaskD0MC.backgroundBranch_eq, TaskD0MC.backgroundD0_eq, TaskD0MC.backgroundD0bar_eq]
    simp [gatedFills]
  · intro h0 h1 name v0 v1 hmem
    rw [TaskD0MC.signalBranch_eq, TaskD0MC.backgroundBranch_eq]
    simp only [List.mem_cons, List.mem_singleton, List.not_mem_nil, or_false,
      Prod.mk.injEq] at hmem
    by_cases hor : c.originMCRec = e.Prompt <;>
      rcases hmem with ⟨hn, hv0, hv1⟩ | ⟨hn, hv0, hv1⟩ | ⟨hn, hv0, hv1⟩ | ⟨hn, hv0, hv1⟩
        | ⟨hn, hv0, hv1⟩ | ⟨hn, hv0, hv1⟩ <;>
      subst hn hv0 hv1 <;>
      simp [signalPtFills, kinematicFills, gatedFills, hypothesisFills, List.filter, h0, h1,
        hor]

/-- Witness for claim C10: the sample candidate passing both hypotheses fills hpionpTRecSig
with prong 0 (pT 3) and then prong 1 (pT 2), and hkaonpTRecSig with prong 1 and then
prong 0. -/
theorem hypothesis_blocks_witness :
    (TaskD0MC.signalBranch sampleEnums sampleHelpers sampleMcHelpers sampleConfig
        sampleParticles [] sampleBothMatched).filter (fun o => o.name = "hpionpTRecSig") =
        [⟨"hpionpTRecSig", [3, 5]⟩, ⟨"hpionpTRecSig", [2, 5]⟩]
      ∧ (TaskD0MC.signalBranch sampleEnums sampleHelpers sampleMcHelpers sampleConfig
        sampleParticles [] sampleBothMatched).filter (fun o => o.name = "hkaonpTRecSig") =
        [⟨"hkaonpTRecSig", [2, 5]⟩, ⟨"hkaonpTRecSig", [3, 5]⟩] := by
  have key := (hypothesis_blocks sampleEnums sampleHelpers sampleMcHelpers sampleConfig
    sampleParticles [] sampleBothMatched).2.2.2.2.2.2.2.2 (by decide) (by decide)
  exact ⟨(key "hpionpTRec" 3 2 (by simp [sampleBothMatched, sampleCandidate])).1,
    (key "hkaonpTRec" 2 3 (by simp [sampleBothMatched, sampleCandidate])).1⟩

/-- Claim C11: in the generated loop of TaskD0MC::process a particle whose |flagMCMatchGen|
is not 1 << D0ToPiK emits nothing; a matching particle emits nothing when cutYCandMax >= 0 and
its rapidity magnitude exceeds cutYCandMax; otherwise it emits exactly hPtGen(pt), then
hPtGenPrompt(pt) when originMCGen is Prompt and hPtGenNonPrompt(pt) otherwise, then
hEtaGen(eta). The fills of the generated loop follow those of the reconstructed loop and do
not depend on the candidates. -/
theorem generated_loop (e : Enums) (h : Helpers) (m : McHelpers) (cfg : Config)
    (p : McParticle) :
    (|p.flagMCMatchGen| ≠ ((1 <<< e.D0ToPiK : Nat) : Int) →
        TaskD0MC.particleObservations e m cfg p = [])
      ∧ (|p.flagMCMatchGen| = ((1 <<< e.D0ToPiK : Nat) : Int) →
          (cfg.cutYCandMax ≥ 0 ∧
            |m.Y p.px p.py p.pz (m.getMassPDG p.pdgCode)| > cfg.cutYCandMax) →
          TaskD0MC.particleObservations e m cfg p = [])
      ∧ (|p.flagMCMatchGen| = ((1 <<< e.D0ToPiK : Nat) : Int) →
          ¬ (cfg.cutYCandMax ≥ 0 ∧
            |m.Y p.px p.py p.pz (m.getMassPDG p.pdgCode)| > cfg.cutYCandMax) →
          (p.originMCGen = e.Prompt →
            TaskD0MC.particleObservations e m cfg p =
              [⟨"hPtGen", [p.pt]⟩, ⟨"hPtGenPrompt", [p.pt]⟩, ⟨"hEtaGen", [p.eta]⟩])
          ∧ (p.originMCGen ≠ e.Prompt →
            TaskD0MC.particleObservations e m cfg p =
              [⟨"hPtGen", [p.pt]⟩, ⟨"hPtGenNonPrompt", [p.pt]⟩, ⟨"hEtaGen", [p.eta]⟩])
          ∧ (TaskD0MC.particleObservations e m cfg p).length = 3)
      ∧ (∀ (registry : HistogramRegistry) (candidates : List CandidateMC)
          (particlesMC : List McParticle),
          TaskD0MC.process e h m cfg registry candidates particlesMC =
            candidates.foldl (TaskD0MC.processCandidate e h m cfg particlesMC) registry
              ++ (particlesMC.map (TaskD0MC.particleObservations e m cfg)).flatten)
      ∧ (∀ (registry : HistogramRegistry) (candidates others : List CandidateMC)
          (particlesMC : List McParticle),
          (TaskD0MC.process e h m cfg registry candidates particlesMC).drop
              (candidates.foldl (TaskD0MC.processCandidate e h m cfg particlesMC)
                registry).length =
            (TaskD0MC.process e h m cfg registry others particlesMC).drop
              (others.foldl (TaskD0MC.processCandidate e h m cfg particlesMC)
                registry).length) := by
  have hproc : ∀ (registry : HistogramRegistry) (candidates : List CandidateMC)
      (particlesMC : List McParticle),
      TaskD0MC.process e h m cfg registry candidates particlesMC =
        candidates.foldl (TaskD0MC.processCandidate e h m cfg particlesMC) registry
          ++ (particlesMC.map (TaskD0MC.particleObservations e m cfg)).flatten := by
    intro registry candidates particlesMC
    unfold TaskD0MC.process
    exact TaskD0MC.genLoop_foldl_eq_append e m cfg particlesMC _
  refine ⟨?_, ?_, ?_, hproc, ?_⟩
  · intro hf
    unfold TaskD0MC.particleObservations TaskD0MC.processParticle
    rw [if_neg hf]
  · intro hf hy
    unfold TaskD0MC.particleObservations TaskD0MC.processParticle
    rw [if_pos hf, if_pos hy]
  · intro hf hy
    unfold TaskD0MC.particleObservations TaskD0MC.processParticle
    rw [if_pos hf, if_neg hy]
    by_cases ho : p.originMCGen = e.Prompt <;> simp [ho, HistogramRegistry.fill]
  · intro registry candidates others particlesMC
    rw [hproc registry candidates, hproc registry others, List.drop_left, List.drop_left]

/-- Witness for claim C11: with the cutoff disabled, the sample Prompt particle (flag 1,
pt 6, eta 0.2) emits hPtGen(6), hPtGenPrompt(6), hEtaGen(0.2); with cutoff 0.5 its rapidity 1
rejects it. -/
theorem generated_loop_witness :
    TaskD0MC.particleObservations sampleEnums sampleMcHelpers sampleConfigNoCut
        ⟨6, 1 / 5, 3, 4, 1, 421, 1, 1⟩ =
        [⟨"hPtGen", [6]⟩, ⟨"hPtGenPrompt", [6]⟩, ⟨"hEtaGen", [1 / 5]⟩]
      ∧ TaskD0MC.particleObservations sampleEnums sampleMcHelpers sampleConfig
        ⟨6, 1 / 5, 3, 4, 1, 421, 1, 1⟩ = [] := by
  have keep := (generated_loop sampleEnums sampleHelpers sampleMcHelpers sampleConfigNoCut
    ⟨6, 1 / 5, 3, 4, 1, 421, 1, 1⟩).2.2.1 (by decide)
    (by norm_num [sampleConfigNoCut])
  have drop := (generated_loop sampleEnums sampleHelpers sampleMcHelpers sampleConfig
    ⟨6, 1 / 5, 3, 4, 1, 421, 1, 1⟩).2.1 (by decide)
    (by norm_num [sampleConfig, sampleMcHelpers])
  exact ⟨keep.1 (by decide), drop⟩

/-- Claim C12: every fill either task makes targets a histogram the same task has declared
(17 distinct names for TaskD0, 41 for TaskD0MC), a one-value fill a histogram declared kTH1F
and a two-value fill one declared kTH2F; conversely there is an input for each task on which
every declared histogram is filled. -/
theorem fills_are_declared :
    TaskD0.declared.length = 17
      ∧ (TaskD0.declared.map HistogramSpec.name).Nodup
      ∧ TaskD0MC.declared.length = 41
      ∧ (TaskD0MC.declared.map HistogramSpec.name).Nodup
      ∧ (∀ (e : Enums) (h : Helpers) (cfg : Config) (registry : HistogramRegistry)
          (candidates : List Candidate),
          ∀ o ∈ (TaskD0.process e h cfg registry candidates).drop registry.length,
            o.declaredIn TaskD0.declared)
      ∧ (∀ (e : Enums) (h : Helpers) (m : McHelpers) (cfg : Config)
          (registry : HistogramRegistry) (candidates : List CandidateMC)
          (particlesMC : List McParticle),
          ∀ o ∈ (TaskD0MC.process e h m cfg registry candidates particlesMC).drop
              registry.length,
            o.declaredIn TaskD0MC.declared)
      ∧ (∃ (e : Enums) (h : Helpers) (cfg : Config) (table : List Candidate),
          ∀ d ∈ TaskD0.declared, ∃ o ∈ TaskD0.run e h cfg [] table, o.name = d.name)
      ∧ (∃ (e : Enums) (h : Helpers) (m : McHelpers) (cfg : Config)
          (table : List CandidateMC) (particlesMC : List McParticle),
          ∀ d ∈ TaskD0MC.declared,
            ∃ o ∈ TaskD0MC.run e h m cfg [] table particlesMC, o.name = d.name) := by
  refine ⟨by decide, by decide, by decide, by decide, ?_, ?_, ?_, ?_⟩
  · intro e h cfg registry candidates o ho
    rw [TaskD0.process_eq_append, List.drop_left] at ho
    obtain ⟨l, hl, hol⟩ := List.mem_flatten.mp ho
    obtain ⟨c, _, hc⟩ := List.mem_map.mp hl
    subst hc
    exact TaskD0.observations_declared e h cfg c o hol
  · intro e h m cfg registry candidates particlesMC o ho
    unfold TaskD0MC.process at ho
    rw [TaskD0MC.genLoop_foldl_eq_append, TaskD0MC.recLoop_foldl_eq_append, List.append_assoc,
      List.drop_left] at ho
    rcases List.mem_append.mp ho with hrec | hgen
    · obtain ⟨l, hl, hol⟩ := List.mem_flatten.mp hrec
      obtain ⟨c, _, hc⟩ := List.mem_map.mp hl
      subst hc
      exact TaskD0MC.recObservations_declared e h m cfg particlesMC c o hol
    · obtain ⟨l, hl, hol⟩ := List.mem_flatten.mp hgen
      obtain ⟨p, _, hp⟩ := List.mem_map.mp hl
      subst hp
      exact TaskD0MC.particleObservations_declared e m cfg p o hol
  · refine ⟨sampleEnums, sampleHelpers, sampleConfig, [sampleBoth], ?_⟩
    have hs : survives sampleEnums sampleHelpers sampleConfig sampleBoth :=
      ⟨by decide, by norm_num [rapidityRejects, sampleHelpers, sampleConfig, lt_abs]⟩
    have hrun : TaskD0.run sampleEnums sampleHelpers sampleConfig [] [sampleBoth] =
        massFills sampleHelpers sampleConfig sampleBoth
          ++ unconditionalFills sampleHelpers sampleBoth := by
      have hf : TaskD0.filterSelectCandidates sampleConfig sampleBoth = true := by decide
      simp [TaskD0.run, TaskD0.process, List.filter, hf,
        TaskD0.processCandidate_survivor _ _ _ [] _ hs.1 hs.2]
    have hnames : ∀ d ∈ TaskD0.declared,
        d.name ∈ (TaskD0.run sampleEnums sampleHelpers sampleConfig [] [sampleBoth]).map
          Fill.name := by
      rw [hrun]
      have h0 : sampleBoth.isSelD0 ≥ sampleConfig.d_selectionFlagD0 := by decide
      have h1 : sampleBoth.isSelD0bar ≥ sampleConfig.d_selectionFlagD0bar := by decide
      simp only [massFills, unconditionalFills, h0, h1, if_true, List.map_append,
        List.map_cons, List.map_nil, List.cons_append, List.nil_append]
      decide
    intro d hd
    obtain ⟨o, ho, hn⟩ := List.mem_map.mp (hnames d hd)
    exact ⟨o, ho, hn⟩
  · refine ⟨sampleEnums, sampleHelpers, sampleMcHelpers, sampleConfigNoCut, sampleTableMC,
      sampleGenParticles, ?_⟩
    have hsurv : ∀ c : CandidateMC, c.toCandidate.hfflag = 1 →
        survives sampleEnums sampleHelpers sampleConfigNoCut c.toCandidate := by
      intro c hc
      refine ⟨?_, ?_⟩
      · unfold passesDecayFlag
        rw [hc]
        decide
      · norm_num [rapidityRejects, sampleConfigNoCut]
    have hfilter : sampleTableMC.filter (TaskD0MC.filterSelectCandidates sampleConfigNoCut) =
        sampleTableMC := by
      have f1 : TaskD0MC.filterSelectCandidates sampleConfigNoCut sampleMatched = true := by
        decide
      have f2 : TaskD0MC.filterSelectCandidates sampleConfigNoCut sampleBothMatched = true := by
        decide
      have f3 : TaskD0MC.filterSelectCandidates sampleConfigNoCut sampleBothUnmatched = true := by
        decide
      simp [sampleTableMC, List.filter, f1, f2, f3]
    have o1 := TaskD0MC.recLoop_matched sampleEnums sampleHelpers sampleMcHelpers
      sampleConfigNoCut sampleGenParticles [] sampleMatched (hsurv _ rfl) (by decide)
    have o2 := TaskD0MC.recLoop_matched sampleEnums sampleHelpers sampleMcHelpers
      sampleConfigNoCut sampleGenParticles [] sampleBothMatched (hsurv _ rfl) (by decide)
    have o3 := TaskD0MC.recLoop_unmatched sampleEnums sampleHelpers sampleMcHelpers
      sampleConfigNoCut sampleGenParticles [] sampleBothUnmatched (hsurv _ rfl) (by decide)
    have hcut : ¬ (sampleConfigNoCut.cutYCandMax ≥ 0) := by norm_num [sampleConfigNoCut]
    have p1 : TaskD0MC.particleObservations sampleEnums sampleMcHelpers sampleConfigNoCut
        ⟨6, 1 / 5, 3, 4, 1, 421, 1, 1⟩ =
        [⟨"hPtGen", [6]⟩, ⟨"hPtGenPrompt", [6]⟩, ⟨"hEtaGen", [1 / 5]⟩] := by
      simp [TaskD0MC.particleObservations, TaskD0MC.processParticle, sampleEnums, hcut,
        HistogramRegistry.fill]
    have p2 : TaskD0MC.particleObservations sampleEnums sampleMcHelpers sampleConfigNoCut
        ⟨7, -1 / 5, 3, 4, 1, -421, -1, 2⟩ =
        [⟨"hPtGen", [7]⟩, ⟨"hPtGenNonPrompt", [7]⟩, ⟨"hEtaGen", [-1 / 5]⟩] := by
      simp [TaskD0MC.particleObservations, TaskD0MC.processParticle, sampleEnums, hcut,
        HistogramRegistry.fill]
    have p3 : TaskD0MC.particleObservations sampleEnums sampleMcHelpers sampleConfigNoCut
        ⟨8, 0, 1, 1, 1, 211, 0, 0⟩ = [] := by
      simp [TaskD0MC.particleObservations, TaskD0MC.processParticle, sampleEnums]
    have hrun : TaskD0MC.run sampleEnums sampleHelpers sampleMcHelpers sampleConfigNoCut []
        sampleTableMC sampleGenParticles =
        TaskD0MC.processCandidate sampleEnums sampleHelpers sampleMcHelpers sampleConfigNoCut
            sampleGenParticles [] sampleMatched
          ++ TaskD0MC.processCandidate sampleEnums sampleHelpers sampleMcHelpers
            sampleConfigNoCut sampleGenParticles [] sampleBothMatched
          ++ TaskD0MC.processCandidate sampleEnums sampleHelpers sampleMcHelpers
            sampleConfigNoCut sampleGenParticles [] sampleBothUnmatched
          ++ ([⟨"hPtGen", [6]⟩, ⟨"hPtGenPrompt", [6]⟩, ⟨"hEtaGen", [1 / 5]⟩]
            ++ [⟨"hPtGen", [7]⟩, ⟨"hPtGenNonPrompt", [7]⟩, ⟨"hEtaGen", [-1 / 5]⟩]) := by
      unfold TaskD0MC.run TaskD0MC.process
      rw [hfilter, TaskD0MC.genLoop_foldl_eq_append, TaskD0MC.recLoop_foldl_eq_append]
      simp only [sampleTableMC, sampleGenParticles, List.map_cons, List.map_nil,
        List.flatten_cons, List.flatten_nil, p1, p2, p3, TaskD0MC.observations,
        List.nil_append, List.append_nil, List.append_assoc]
    have hnames : ∀ d ∈ TaskD0MC.declared,
        d.name ∈ (TaskD0MC.run sampleEnums sampleHelpers sampleMcHelpers sampleConfigNoCut []
          sampleTableMC sampleGenParticles).map Fill.name := by
      rw [hrun, o1, o2, o3]
      have e1 : sampleMatched.originMCRec = sampleEnums.Prompt := by decide
      have e2 : ¬ sampleBothMatched.originMCRec = sampleEnums.Prompt := by decide
      have a1 : sampleMatched.isSelD0 ≥ sampleConfigNoCut.d_selectionFlagD0 := by decide
      have a2 : ¬ sampleMatched.isSelD0bar ≥ sampleConfigNoCut.d_selectionFlagD0bar := by
        decide
      have b1 : sampleBothMatched.isSelD0 ≥ sampleConfigNoCut.d_selectionFlagD0 := by decide
      have b2 : sampleBothMatched.isSelD0bar ≥ sampleConfigNoCut.d_selectionFlagD0bar := by
        decide
      have c1 : sampleBothUnmatched.isSelD0 ≥ sampleConfigNoCut.d_selectionFlagD0 := by decide
      have c2 : sampleBothUnmatched.isSelD0bar ≥ sampleConfigNoCut.d_selectionFlagD0bar := by
        decide
      simp only [signalPtFills, kinematicFills, gatedFills, hypothesisFills, e1, e2, a1, a2,
        b1, b2, c1, c2, if_true, if_false, List.map_append, List.map_cons, List.map_nil,
        List.cons_append, List.nil_append, List.append_nil]
      decide
    intro d hd
    obtain ⟨o, ho, hn⟩ := List.mem_map.mp (hnames d hd)
    exact ⟨o, ho, hn⟩

/-- Witness for claim C12: the 18 fills of the sample candidate are all made on histograms
TaskD0 has declared, with the declared number of values. -/
theorem fills_are_declared_witness :
    ∀ o ∈ TaskD0.process sampleEnums sampleHelpers sampleConfig [] [sampleCandidate],
      o.declaredIn TaskD0.declared :=
  fills_are_declared.2.2.2.2.1 sampleEnums sampleHelpers sampleConfig [] [sampleCandidate]

end O2
